import Mathlib

/-!
Verification development for an in-process cache for a gateway client.

The development shallowly embeds, in Lean, the event-to-mutation engine
(`base/src/cache.rs`), the in-memory repositories
(`in-memory/src/repository.rs` and `in-memory/src/repository/message.rs`)
and the configuration (`in-memory/src/config.rs`) of the cache crate, and
proves properties of the embedding.

Machine integers that cannot realistically overflow (snowflake ids, set
sizes) are modelled as `Nat`; `DashMap`s are modelled as association lists
with functional update; `HashSet`s as duplicate-free lists; `BTreeSet`s as
ascending sorted lists; the uninhabited backend error type makes every
repository future infallible, so repository calls are modelled as plain
state transformations.  The in-memory repository futures perform their
side effect eagerly when the repository method is called (before the
future is polled), so one event's repository calls are modelled
sequentially in the order the engine issues them.
-/

namespace Twi

/-! ### Association lists (model of `DashMap`) -/

/-- Lookup in an association list: model of `DashMap::get`. -/
def alGet {κ α : Type} [DecidableEq κ] : List (κ × α) → κ → Option α
  | [], _ => none
  | (k₂, v) :: t, k => if k₂ = k then some v else alGet t k

/-- Remove every binding of a key: model of `DashMap::remove`. -/
def alErase {κ α : Type} [DecidableEq κ] : List (κ × α) → κ → List (κ × α)
  | [], _ => []
  | (k₂, v) :: t, k => if k₂ = k then alErase t k else (k₂, v) :: alErase t k

/-- Insert-or-replace a binding: model of `DashMap::insert`. -/
def alInsert {κ α : Type} [DecidableEq κ] (l : List (κ × α)) (k : κ) (v : α) :
    List (κ × α) :=
  (k, v) :: alErase l k

@[simp]
theorem alGet_nil {κ α : Type} [DecidableEq κ] (k : κ) :
    alGet ([] : List (κ × α)) k = none := rfl

@[simp]
theorem alGet_erase_self {κ α : Type} [DecidableEq κ] (l : List (κ × α)) (k : κ) :
    alGet (alErase l k) k = none := by
  induction l with
  | nil => rfl
  | cons h t ih =>
    obtain ⟨k₂, v⟩ := h
    by_cases hk : k₂ = k <;> simp [alErase, alGet, hk, ih]

theorem alGet_erase_ne {κ α : Type} [DecidableEq κ] (l : List (κ × α)) (k k₂ : κ)
    (h : k ≠ k₂) : alGet (alErase l k) k₂ = alGet l k₂ := by
  induction l with
  | nil => rfl
  | cons hd t ih =>
    obtain ⟨k₃, v⟩ := hd
    by_cases hk : k₃ = k
    · subst hk
      rw [alErase, if_pos rfl, alGet, if_neg h, ih]
    · simp [alErase, alGet, hk, ih]

@[simp]
theorem alGet_insert_self {κ α : Type} [DecidableEq κ] (l : List (κ × α)) (k : κ)
    (v : α) : alGet (alInsert l k v) k = some v := by
  simp [alInsert, alGet]

theorem alGet_insert_ne {κ α : Type} [DecidableEq κ] (l : List (κ × α)) (k k₂ : κ)
    (v : α) (h : k ≠ k₂) : alGet (alInsert l k v) k₂ = alGet l k₂ := by
  simp [alInsert, alGet, h, alGet_erase_ne l k k₂ h]

/-! ### Finite sets of ids (model of `HashSet`) -/

/-- Insert into a set: model of `HashSet::insert`. -/
def sInsert {α : Type} [DecidableEq α] (a : α) (s : List α) : List α :=
  if a ∈ s then s else a :: s

/-- Remove from a set: model of `HashSet::remove`. -/
def sErase {α : Type} [DecidableEq α] (a : α) (s : List α) : List α :=
  s.filter (fun x => x ≠ a)

@[simp]
theorem mem_sInsert {α : Type} [DecidableEq α] (a b : α) (s : List α) :
    b ∈ sInsert a s ↔ b = a ∨ b ∈ s := by
  by_cases h : a ∈ s
  · simp only [sInsert, if_pos h]
    constructor
    · exact Or.inr
    · rintro (rfl | hb)
      · exact h
      · exact hb
  · simp [sInsert, if_neg h]

/-- Lookup of a guild-scoped id set, empty when the guild has no entry. -/
def sGet {κ α : Type} [DecidableEq κ] (l : List (κ × List α)) (k : κ) : List α :=
  (alGet l k).getD []

/-! ### Ascending sorted id sets (model of `BTreeSet<MessageId>`) -/

/-- Insert into an ascending sorted duplicate-free list:
model of `BTreeSet::insert`. -/
def btInsert (n : Nat) : List Nat → List Nat
  | [] => [n]
  | m :: t =>
    if n < m then n :: m :: t
    else if n = m then m :: t
    else m :: btInsert n t

@[simp]
theorem mem_btInsert (n b : Nat) (s : List Nat) :
    b ∈ btInsert n s ↔ b = n ∨ b ∈ s := by
  induction s with
  | nil => simp [btInsert]
  | cons m t ih =>
    by_cases h₁ : n < m
    · simp only [btInsert, if_pos h₁, List.mem_cons]
    · by_cases h₂ : n = m
      · subst h₂
        have hins : btInsert n (n :: t) = n :: t := by
          simp [btInsert, h₁]
        rw [hins, List.mem_cons]
        tauto
      · simp only [btInsert, if_neg h₁, if_neg h₂, List.mem_cons, ih]
        tauto

theorem btInsert_length_le (n : Nat) (s : List Nat) :
    (btInsert n s).length ≤ s.length + 1 := by
  induction s with
  | nil => simp [btInsert]
  | cons m t ih =>
    by_cases h₁ : n < m
    · simp [btInsert, h₁]
    · by_cases h₂ : n = m
      · subst h₂
        simp [btInsert, h₁]
      · simp only [btInsert, if_neg h₁, if_neg h₂, List.length_cons]
        omega

/-! ### Configuration (`in-memory/src/config.rs`) -/

/- Bit flags selecting which entity types the backend accepts writes for,
mirroring the `bitflags!` block of `config.rs`. -/
namespace EntityType

def ATTACHMENT : Nat := 1 <<< 0
def CHANNEL_CATEGORY : Nat := 1 <<< 1
def CHANNEL_GROUP : Nat := 1 <<< 2
def CHANNEL_PRIVATE : Nat := 1 <<< 3
def CHANNEL_TEXT : Nat := 1 <<< 4
def CHANNEL_VOICE : Nat := 1 <<< 5
def EMOJI : Nat := 1 <<< 6
def GUILD : Nat := 1 <<< 7
def MEMBER : Nat := 1 <<< 8
def MESSAGE : Nat := 1 <<< 9
def PRESENCE : Nat := 1 <<< 10
def ROLE : Nat := 1 <<< 11
def USER : Nat := 1 <<< 12
def USER_CURRENT : Nat := 1 <<< 13
def VOICE_STATE : Nat := 1 <<< 14

/-- Value of `EntityType::all()`: all fifteen flags set. -/
def all : Nat := (1 <<< 15) - 1

/-- Model of `bitflags`' `contains`: every bit of `flag` is set in `s`. -/
def contains (s flag : Nat) : Bool := s.land flag = flag

end EntityType

/-- Configuration of the in-memory backend: the enabled entity-type bitset
and the per-channel message retention bound. -/
structure Config where
  entity_types : Nat
  message_cache_size : Nat
  deriving DecidableEq, Repr

/-- Default configuration: all entity types, bound 100. -/
def Config.default : Config :=
  { entity_types := EntityType.all, message_cache_size := 100 }

/-!
### Entities (`base/src/entity/**`)

Ids are `Nat`.  Foreign scalar-like payload types owned by the external
model crate (`ChannelType`, `Permissions`, `UserFlags`, `PremiumType`,
`Status`, `MessageType`, enum levels, …) are modelled as `Nat`; compound
foreign payload values carried opaquely by an entity
(`PermissionOverwrite`, `Activity`, `ClientStatus`, `Embed`,
`MessageReaction`, `MessageActivity`) are also modelled as `Nat`
placeholders, since the cache never inspects them.
-/

/-- Model of `AttachmentEntity` (`entity/channel/attachment.rs`). -/
structure AttachmentEntity where
  filename : String
  height : Option Nat
  id : Nat
  message_id : Nat
  proxy_url : String
  size : Nat
  url : String
  width : Option Nat
  deriving DecidableEq, Repr

/-- Model of `CategoryChannelEntity` (`entity/channel/category_channel.rs`). -/
structure CategoryChannelEntity where
  guild_id : Option Nat
  id : Nat
  kind : Nat
  name : String
  permission_overwrites : List Nat
  position : Int
  deriving DecidableEq, Repr

/-- Model of `CurrentUserEntity` (`entity/user/current_user.rs`). -/
structure CurrentUserEntity where
  avatar : Option String
  bot : Bool
  discriminator : String
  email : Option String
  flags : Option Nat
  id : Nat
  mfa_enabled : Bool
  name : String
  premium_type : Option Nat
  public_flags : Option Nat
  verified : Option Bool
  deriving DecidableEq, Repr

/-- Model of `EmojiEntity` (`entity/guild/emoji.rs`). -/
structure EmojiEntity where
  animated : Bool
  available : Bool
  guild_id : Nat
  id : Nat
  managed : Bool
  name : String
  require_colons : Bool
  role_ids : List Nat
  user_id : Option Nat
  deriving DecidableEq, Repr

/-- Model of `GroupEntity` (`entity/channel/group.rs`). -/
structure GroupEntity where
  application_id : Option Nat
  icon : Option String
  id : Nat
  kind : Nat
  last_message_id : Option Nat
  last_pin_timestamp : Option String
  name : Option String
  owner_id : Nat
  recipient_ids : List Nat
  deriving DecidableEq, Repr

/-- Model of `GuildEntity` (`entity/guild/mod.rs`). -/
structure GuildEntity where
  afk_channel_id : Option Nat
  afk_timeout : Nat
  application_id : Option Nat
  approximate_member_count : Option Nat
  approximate_presence_count : Option Nat
  banner : Option String
  default_message_notifications : Nat
  description : Option String
  discovery_splash : Option String
  explicit_content_filter : Nat
  features : List String
  icon : Option String
  id : Nat
  joined_at : Option String
  large : Bool
  lazy : Option Bool
  max_members : Option Nat
  max_presences : Option Nat
  max_video_channel_users : Option Nat
  member_count : Option Nat
  mfa_level : Nat
  name : String
  owner_id : Nat
  owner : Option Bool
  permissions : Option Nat
  preferred_locale : String
  premium_subscription_count : Option Nat
  premium_tier : Nat
  region : String
  rules_channel_id : Option Nat
  splash : Option String
  system_channel_flags : Nat
  system_channel_id : Option Nat
  unavailable : Bool
  vanity_url_code : Option String
  verification_level : Nat
  widget_channel_id : Option Nat
  widget_enabled : Option Bool
  deriving DecidableEq, Repr

/-- Model of `MemberEntity` (`entity/guild/member.rs`).  Its `Entity::id()`
is the composite `(guild_id, user_id)`. -/
structure MemberEntity where
  deaf : Bool
  guild_id : Nat
  hoisted_role_id : Option Nat
  joined_at : Option String
  mute : Bool
  nick : Option String
  premium_since : Option String
  role_ids : List Nat
  user_id : Nat
  deriving DecidableEq, Repr

/-- Model of `MessageEntity` (`entity/channel/message.rs`). -/
structure MessageEntity where
  activity : Option Nat
  application_id : Option Nat
  attachments : List Nat
  author_id : Nat
  channel_id : Nat
  content : String
  edited_timestamp : Option String
  embeds : List Nat
  flags : Option Nat
  guild_id : Option Nat
  id : Nat
  kind : Nat
  mention_channels : List Nat
  mention_everyone : Bool
  mention_roles : List Nat
  mentions : List Nat
  pinned : Bool
  reactions : List Nat
  timestamp : String
  tts : Bool
  webhook_id : Option Nat
  deriving DecidableEq, Repr

/-- Model of `PresenceEntity` (`entity/gateway/presence.rs`).  Its
`Entity::id()` is the composite `(guild_id, user_id)`. -/
structure PresenceEntity where
  activities : List Nat
  client_status : Nat
  guild_id : Nat
  status : Nat
  user_id : Nat
  deriving DecidableEq, Repr

/-- Model of `PrivateChannelEntity` (`entity/channel/private_channel.rs`). -/
structure PrivateChannelEntity where
  id : Nat
  last_message_id : Option Nat
  last_pin_timestamp : Option String
  kind : Nat
  recipient_id : Option Nat
  deriving DecidableEq, Repr

/-- Model of `RoleEntity` (`entity/guild/role.rs`). -/
structure RoleEntity where
  color : Nat
  guild_id : Nat
  hoist : Bool
  id : Nat
  managed : Bool
  mentionable : Bool
  name : String
  permissions : Nat
  position : Int
  deriving DecidableEq, Repr

/-- Model of `TextChannelEntity` (`entity/channel/text_channel.rs`). -/
structure TextChannelEntity where
  guild_id : Option Nat
  id : Nat
  kind : Nat
  last_message_id : Option Nat
  last_pin_timestamp : Option String
  name : String
  nsfw : Bool
  permission_overwrites : List Nat
  parent_id : Option Nat
  position : Int
  rate_limit_per_user : Option Nat
  topic : Option String
  deriving DecidableEq, Repr

/-- Model of `UserEntity` (`entity/user/mod.rs`). -/
structure UserEntity where
  avatar : Option String
  bot : Bool
  discriminator : String
  email : Option String
  flags : Option Nat
  id : Nat
  locale : Option String
  mfa_enabled : Option Bool
  name : String
  premium_type : Option Nat
  public_flags : Option Nat
  system : Option Bool
  verified : Option Bool
  deriving DecidableEq, Repr

/-- Model of `VoiceChannelEntity` (`entity/channel/voice_channel.rs`). -/
structure VoiceChannelEntity where
  bitrate : Nat
  guild_id : Option Nat
  id : Nat
  kind : Nat
  name : String
  permission_overwrites : List Nat
  parent_id : Option Nat
  position : Int
  user_limit : Option Nat
  deriving DecidableEq, Repr

/-- Model of `VoiceStateEntity` (`entity/voice/state.rs`).  Its
`Entity::id()` is the composite `(guild_id, user_id)`. -/
structure VoiceStateEntity where
  channel_id : Option Nat
  deaf : Bool
  guild_id : Nat
  mute : Bool
  self_deaf : Bool
  self_mute : Bool
  self_stream : Bool
  session_id : String
  suppress : Bool
  token : Option String
  user_id : Nat
  deriving DecidableEq, Repr

/-!
### Gateway payloads used by the modelled events

These mirror the fields of the external model crate's payload structs that
the engine actually reads.
-/

/-- Model of the external `User` payload struct. -/
structure User where
  avatar : Option String
  bot : Bool
  discriminator : String
  email : Option String
  flags : Option Nat
  id : Nat
  locale : Option String
  mfa_enabled : Option Bool
  name : String
  premium_type : Option Nat
  public_flags : Option Nat
  system : Option Bool
  verified : Option Bool
  deriving DecidableEq, Repr

/-- Model of `From<User> for UserEntity` (`entity/user/mod.rs`). -/
def UserEntity.ofUser (user : User) : UserEntity :=
  { avatar := user.avatar
    bot := user.bot
    discriminator := user.discriminator
    email := user.email
    flags := user.flags
    id := user.id
    locale := user.locale
    mfa_enabled := user.mfa_enabled
    name := user.name
    premium_type := user.premium_type
    public_flags := user.public_flags
    system := user.system
    verified := user.verified }

/-- Model of the external `Attachment` payload struct. -/
structure Attachment where
  filename : String
  height : Option Nat
  id : Nat
  proxy_url : String
  size : Nat
  url : String
  width : Option Nat
  deriving DecidableEq, Repr

/-- Model of `From<(MessageId, Attachment)> for AttachmentEntity`
(`entity/channel/attachment.rs`). -/
def AttachmentEntity.ofAttachment (message_id : Nat) (attachment : Attachment) :
    AttachmentEntity :=
  { filename := attachment.filename
    height := attachment.height
    id := attachment.id
    message_id := message_id
    proxy_url := attachment.proxy_url
    size := attachment.size
    url := attachment.url
    width := attachment.width }

/-- Model of the external `GuildDelete` payload struct. -/
structure GuildDelete where
  id : Nat
  unavailable : Bool
  deriving DecidableEq, Repr

/-- Model of the external `MemberUpdate` payload struct (the fields the
engine reads). -/
structure MemberUpdate where
  guild_id : Nat
  joined_at : String
  nick : Option String
  premium_since : Option String
  roles : List Nat
  user : User
  deriving DecidableEq, Repr

/-- Model of `From<(MemberUpdate, MemberEntity)> for MemberEntity`
(`entity/guild/member.rs` lines 42-54): the merge the engine applies to a
stored member on a member-update event. -/
def MemberEntity.update (old : MemberEntity) (member : MemberUpdate) :
    MemberEntity :=
  { old with
    guild_id := member.guild_id
    joined_at := some member.joined_at
    nick := member.nick.orElse (fun _ => old.nick)
    premium_since := member.premium_since.orElse (fun _ => old.premium_since)
    role_ids := member.roles
    user_id := member.user.id }

/-- Model of the external `MessageUpdate` payload struct. -/
structure MessageUpdate where
  attachments : Option (List Attachment)
  author : Option User
  channel_id : Nat
  content : Option String
  edited_timestamp : Option String
  embeds : Option (List Nat)
  guild_id : Option Nat
  id : Nat
  kind : Option Nat
  mention_everyone : Option Bool
  mention_roles : Option (List Nat)
  mentions : Option (List User)
  pinned : Option Bool
  timestamp : Option String
  tts : Option Bool
  deriving DecidableEq, Repr

/-- Model of `MessageEntity::update` (`entity/channel/message.rs` lines
97-124): the merge the engine applies to a stored message on a
message-update event. -/
def MessageEntity.update (self : MessageEntity) (upd : MessageUpdate) :
    MessageEntity :=
  { self with
    attachments :=
      match upd.attachments with
      | none => self.attachments
      | some a => a.map (·.id)
    author_id :=
      match upd.author with
      | none => self.author_id
      | some a => a.id
    channel_id := upd.channel_id
    content := upd.content.getD self.content
    edited_timestamp := upd.edited_timestamp.orElse (fun _ => self.edited_timestamp)
    embeds := upd.embeds.getD self.embeds
    guild_id := upd.guild_id.orElse (fun _ => self.guild_id)
    id := upd.id
    kind := upd.kind.getD self.kind
    mention_everyone := upd.mention_everyone.getD self.mention_everyone
    mention_roles := upd.mention_roles.getD self.mention_roles
    mentions :=
      match upd.mentions with
      | none => self.mentions
      | some m => m.map (·.id)
    pinned := upd.pinned.getD self.pinned
    timestamp := upd.timestamp.getD self.timestamp
    tts := upd.tts.getD self.tts }

/-- Model of the external `ChannelPinsUpdate` payload struct. -/
structure ChannelPinsUpdate where
  channel_id : Nat
  guild_id : Option Nat
  last_pin_timestamp : Option String
  deriving DecidableEq, Repr

/-- Model of the external `VoiceState` payload struct (the fields the
engine and `VoiceStateEntity` read; the optional nested member payload is
an opaque placeholder). -/
structure VoiceState where
  channel_id : Option Nat
  deaf : Bool
  guild_id : Option Nat
  member : Option Nat
  mute : Bool
  self_deaf : Bool
  self_mute : Bool
  self_stream : Bool
  session_id : String
  suppress : Bool
  token : Option String
  user_id : Nat
  deriving DecidableEq, Repr

/-- Model of `From<(VoiceState, GuildId)> for VoiceStateEntity`
(`entity/voice/state.rs`). -/
def VoiceStateEntity.ofVoiceState (voice_state : VoiceState) (guild_id : Nat) :
    VoiceStateEntity :=
  { channel_id := voice_state.channel_id
    deaf := voice_state.deaf
    guild_id := guild_id
    mute := voice_state.mute
    self_deaf := voice_state.self_deaf
    self_mute := voice_state.self_mute
    self_stream := voice_state.self_stream
    session_id := voice_state.session_id
    suppress := voice_state.suppress
    token := voice_state.token
    user_id := voice_state.user_id }

/-!
### The in-memory backend state (`in-memory/src/lib.rs`, `InMemoryBackendRef`)
-/

/-- Model of `InMemoryBackendRef`: one map per entity type, the per-channel
message-id sets, the guild-scoped secondary index sets, the current-user
slot and the configuration. -/
structure InMemoryBackendRef where
  attachments : List (Nat × AttachmentEntity)
  channels_category : List (Nat × CategoryChannelEntity)
  channels_private : List (Nat × PrivateChannelEntity)
  channels_text : List (Nat × TextChannelEntity)
  channels_voice : List (Nat × VoiceChannelEntity)
  channel_messages : List (Nat × List Nat)
  config : Config
  emojis : List (Nat × EmojiEntity)
  groups : List (Nat × GroupEntity)
  guilds : List (Nat × GuildEntity)
  guild_channels : List (Nat × List Nat)
  guild_emojis : List (Nat × List Nat)
  guild_members : List (Nat × List Nat)
  guild_presences : List (Nat × List Nat)
  guild_roles : List (Nat × List Nat)
  guild_voice_states : List (Nat × List Nat)
  members : List ((Nat × Nat) × MemberEntity)
  messages : List (Nat × MessageEntity)
  presences : List ((Nat × Nat) × PresenceEntity)
  roles : List (Nat × RoleEntity)
  users : List (Nat × UserEntity)
  user_current : Option CurrentUserEntity
  user_guilds : List (Nat × List Nat)
  voice_states : List ((Nat × Nat) × VoiceStateEntity)
  deriving DecidableEq, Repr

/-- A freshly built backend: every collection empty, the given config
(model of `InMemoryBackendBuilder::build`). -/
def emptyBackend (config : Config) : InMemoryBackendRef :=
  { attachments := []
    channels_category := []
    channels_private := []
    channels_text := []
    channels_voice := []
    channel_messages := []
    config := config
    emojis := []
    groups := []
    guilds := []
    guild_channels := []
    guild_emojis := []
    guild_members := []
    guild_presences := []
    guild_roles := []
    guild_voice_states := []
    members := []
    messages := []
    presences := []
    roles := []
    users := []
    user_current := none
    user_guilds := []
    voice_states := [] }

/-- Short-hand for the gating test performed at the head of every write
(`repository.rs` line 221, `config.rs` docs). -/
def gateOn (st : InMemoryBackendRef) (flag : Nat) : Bool :=
  EntityType.contains st.config.entity_types flag

/-!
### Guild-scoped secondary index maintenance

Modelled from the spec: the spec states that the guild→children secondary
indexes "must stay in sync with every child upsert/remove, but the
maintenance path is not fully visible in the available source; an
implementer should maintain them transactionally on every child write".
The two definitions below are that maintenance: adding a child id to its
guild's index set on a child upsert, and dropping it on a child remove.
They are invoked from the child repositories' write operations, whose
remaining behaviour is translated from `in-memory/src/repository.rs`.
-/

/-- Modelled from the spec: record a child id in its guild's secondary
index set on a child upsert. -/
def indexAdd (idx : List (Nat × List Nat)) (guild_id child : Nat) :
    List (Nat × List Nat) :=
  alInsert idx guild_id (sInsert child (sGet idx guild_id))

/-- Modelled from the spec: drop a child id from its guild's secondary
index set on a child remove. -/
def indexDel (idx : List (Nat × List Nat)) (guild_id child : Nat) :
    List (Nat × List Nat) :=
  alInsert idx guild_id (sErase child (sGet idx guild_id))

/-!
### Repository operations

Translated from the blanket
`impl<E: EntityExt> Repository<E, InMemoryBackend> for InMemoryRepository<E>`
(`in-memory/src/repository.rs` lines 199-229): `get` is a map lookup,
`remove` a map erase, and `upsert` first checks the entity type's gating
bit and then inserts into the map keyed by `entity.id()`.  The message
repository instead follows `in-memory/src/repository/message.rs`
(retention-bound maintenance in `upsert`/`remove`).  Guild-scoped child
repositories additionally maintain their secondary index (spec-modelled,
see above).
-/

def attachment_get (st : InMemoryBackendRef) (id : Nat) : Option AttachmentEntity :=
  alGet st.attachments id

def attachment_upsert (st : InMemoryBackendRef) (e : AttachmentEntity) :
    InMemoryBackendRef :=
  if gateOn st EntityType.ATTACHMENT then
    { st with attachments := alInsert st.attachments e.id e }
  else st

def attachment_remove (st : InMemoryBackendRef) (id : Nat) : InMemoryBackendRef :=
  { st with attachments := alErase st.attachments id }

def category_channel_get (st : InMemoryBackendRef) (id : Nat) :
    Option CategoryChannelEntity :=
  alGet st.channels_category id

def category_channel_upsert (st : InMemoryBackendRef) (e : CategoryChannelEntity) :
    InMemoryBackendRef :=
  if gateOn st EntityType.CHANNEL_CATEGORY then
    let st₂ := { st with channels_category := alInsert st.channels_category e.id e }
    match e.guild_id with
    | some g => { st₂ with guild_channels := indexAdd st₂.guild_channels g e.id }
    | none => st₂
  else st

def category_channel_remove (st : InMemoryBackendRef) (id : Nat) :
    InMemoryBackendRef :=
  { st with
    channels_category := alErase st.channels_category id
    guild_channels :=
      match alGet st.channels_category id with
      | some c =>
        match c.guild_id with
        | some g => indexDel st.guild_channels g id
        | none => st.guild_channels
      | none => st.guild_channels }

def text_channel_get (st : InMemoryBackendRef) (id : Nat) :
    Option TextChannelEntity :=
  alGet st.channels_text id

def text_channel_upsert (st : InMemoryBackendRef) (e : TextChannelEntity) :
    InMemoryBackendRef :=
  if gateOn st EntityType.CHANNEL_TEXT then
    let st₂ := { st with channels_text := alInsert st.channels_text e.id e }
    match e.guild_id with
    | some g => { st₂ with guild_channels := indexAdd st₂.guild_channels g e.id }
    | none => st₂
  else st

def text_channel_remove (st : InMemoryBackendRef) (id : Nat) : InMemoryBackendRef :=
  { st with
    channels_text := alErase st.channels_text id
    guild_channels :=
      match alGet st.channels_text id with
      | some c =>
        match c.guild_id with
        | some g => indexDel st.guild_channels g id
        | none => st.guild_channels
      | none => st.guild_channels }

def voice_channel_get (st : InMemoryBackendRef) (id : Nat) :
    Option VoiceChannelEntity :=
  alGet st.channels_voice id

def voice_channel_upsert (st : InMemoryBackendRef) (e : VoiceChannelEntity) :
    InMemoryBackendRef :=
  if gateOn st EntityType.CHANNEL_VOICE then
    let st₂ := { st with channels_voice := alInsert st.channels_voice e.id e }
    match e.guild_id with
    | some g => { st₂ with guild_channels := indexAdd st₂.guild_channels g e.id }
    | none => st₂
  else st

def voice_channel_remove (st : InMemoryBackendRef) (id : Nat) : InMemoryBackendRef :=
  { st with
    channels_voice := alErase st.channels_voice id
    guild_channels :=
      match alGet st.channels_voice id with
      | some c =>
        match c.guild_id with
        | some g => indexDel st.guild_channels g id
        | none => st.guild_channels
      | none => st.guild_channels }

def private_channel_get (st : InMemoryBackendRef) (id : Nat) :
    Option PrivateChannelEntity :=
  alGet st.channels_private id

def private_channel_upsert (st : InMemoryBackendRef) (e : PrivateChannelEntity) :
    InMemoryBackendRef :=
  if gateOn st EntityType.CHANNEL_PRIVATE then
    { st with channels_private := alInsert st.channels_private e.id e }
  else st

def private_channel_remove (st : InMemoryBackendRef) (id : Nat) :
    InMemoryBackendRef :=
  { st with channels_private := alErase st.channels_private id }

def group_get (st : InMemoryBackendRef) (id : Nat) : Option GroupEntity :=
  alGet st.groups id

def group_upsert (st : InMemoryBackendRef) (e : GroupEntity) : InMemoryBackendRef :=
  if gateOn st EntityType.CHANNEL_GROUP then
    { st with groups := alInsert st.groups e.id e }
  else st

def group_remove (st : InMemoryBackendRef) (id : Nat) : InMemoryBackendRef :=
  { st with groups := alErase st.groups id }

def guild_get (st : InMemoryBackendRef) (id : Nat) : Option GuildEntity :=
  alGet st.guilds id

def guild_upsert (st : InMemoryBackendRef) (e : GuildEntity) : InMemoryBackendRef :=
  if gateOn st EntityType.GUILD then
    { st with guilds := alInsert st.guilds e.id e }
  else st

def guild_remove (st : InMemoryBackendRef) (id : Nat) : InMemoryBackendRef :=
  { st with guilds := alErase st.guilds id }

def emoji_get (st : InMemoryBackendRef) (id : Nat) : Option EmojiEntity :=
  alGet st.emojis id

def emoji_upsert (st : InMemoryBackendRef) (e : EmojiEntity) : InMemoryBackendRef :=
  if gateOn st EntityType.EMOJI then
    let st₂ := { st with emojis := alInsert st.emojis e.id e }
    { st₂ with guild_emojis := indexAdd st₂.guild_emojis e.guild_id e.id }
  else st

def emoji_remove (st : InMemoryBackendRef) (id : Nat) : InMemoryBackendRef :=
  { st with
    emojis := alErase st.emojis id
    guild_emojis :=
      match alGet st.emojis id with
      | some e => indexDel st.guild_emojis e.guild_id id
      | none => st.guild_emojis }

def member_get (st : InMemoryBackendRef) (id : Nat × Nat) : Option MemberEntity :=
  alGet st.members id

def member_upsert (st : InMemoryBackendRef) (e : MemberEntity) : InMemoryBackendRef :=
  if gateOn st EntityType.MEMBER then
    let st₂ := { st with members := alInsert st.members (e.guild_id, e.user_id) e }
    { st₂ with guild_members := indexAdd st₂.guild_members e.guild_id e.user_id }
  else st

def member_remove (st : InMemoryBackendRef) (id : Nat × Nat) : InMemoryBackendRef :=
  { st with
    members := alErase st.members id
    guild_members := indexDel st.guild_members id.1 id.2 }

def presence_get (st : InMemoryBackendRef) (id : Nat × Nat) : Option PresenceEntity :=
  alGet st.presences id

def presence_upsert (st : InMemoryBackendRef) (e : PresenceEntity) :
    InMemoryBackendRef :=
  if gateOn st EntityType.PRESENCE then
    let st₂ := { st with presences := alInsert st.presences (e.guild_id, e.user_id) e }
    { st₂ with guild_presences := indexAdd st₂.guild_presences e.guild_id e.user_id }
  else st

def presence_remove (st : InMemoryBackendRef) (id : Nat × Nat) : InMemoryBackendRef :=
  { st with
    presences := alErase st.presences id
    guild_presences := indexDel st.guild_presences id.1 id.2 }

def role_get (st : InMemoryBackendRef) (id : Nat) : Option RoleEntity :=
  alGet st.roles id

def role_upsert (st : InMemoryBackendRef) (e : RoleEntity) : InMemoryBackendRef :=
  if gateOn st EntityType.ROLE then
    let st₂ := { st with roles := alInsert st.roles e.id e }
    { st₂ with guild_roles := indexAdd st₂.guild_roles e.guild_id e.id }
  else st

def role_remove (st : InMemoryBackendRef) (id : Nat) : InMemoryBackendRef :=
  { st with
    roles := alErase st.roles id
    guild_roles :=
      match alGet st.roles id with
      | some r => indexDel st.guild_roles r.guild_id id
      | none => st.guild_roles }

def user_get (st : InMemoryBackendRef) (id : Nat) : Option UserEntity :=
  alGet st.users id

def user_upsert (st : InMemoryBackendRef) (e : UserEntity) : InMemoryBackendRef :=
  if gateOn st EntityType.USER then
    { st with users := alInsert st.users e.id e }
  else st

def user_remove (st : InMemoryBackendRef) (id : Nat) : InMemoryBackendRef :=
  { st with users := alErase st.users id }

def current_user_get (st : InMemoryBackendRef) : Option CurrentUserEntity :=
  st.user_current

def current_user_upsert (st : InMemoryBackendRef) (e : CurrentUserEntity) :
    InMemoryBackendRef :=
  if gateOn st EntityType.USER_CURRENT then
    { st with user_current := some e }
  else st

def current_user_remove (st : InMemoryBackendRef) : InMemoryBackendRef :=
  { st with user_current := none }

def voice_state_get (st : InMemoryBackendRef) (id : Nat × Nat) :
    Option VoiceStateEntity :=
  alGet st.voice_states id

def voice_state_upsert (st : InMemoryBackendRef) (e : VoiceStateEntity) :
    InMemoryBackendRef :=
  if gateOn st EntityType.VOICE_STATE then
    let st₂ :=
      { st with voice_states := alInsert st.voice_states (e.guild_id, e.user_id) e }
    { st₂ with
      guild_voice_states := indexAdd st₂.guild_voice_states e.guild_id e.user_id }
  else st

def voice_state_remove (st : InMemoryBackendRef) (id : Nat × Nat) :
    InMemoryBackendRef :=
  { st with
    voice_states := alErase st.voice_states id
    guild_voice_states := indexDel st.guild_voice_states id.1 id.2 }

/-!
### Message repository (`in-memory/src/repository/message.rs`)
-/

/-- Model of `InMemoryMessageRepository::insert_message_id` (lines 37-60):
track a message id in its channel's ascending-ordered set; once the set's
size is no longer below the configured bound, evict the lowest id from the
set and from the primary message map.  A bound of zero disables tracking
entirely. -/
def insert_message_id (st : InMemoryBackendRef) (channel_id message_id : Nat) :
    InMemoryBackendRef :=
  let cache_size := st.config.message_cache_size
  if cache_size = 0 then st
  else
    let channel_messages := btInsert message_id (sGet st.channel_messages channel_id)
    if channel_messages.length < cache_size then
      { st with
        channel_messages := alInsert st.channel_messages channel_id channel_messages }
    else
      match channel_messages with
      | [] =>
        { st with
          channel_messages := alInsert st.channel_messages channel_id channel_messages }
      | oldest_message_id :: rest =>
        { st with
          channel_messages := alInsert st.channel_messages channel_id rest
          messages := alErase st.messages oldest_message_id }

def message_get (st : InMemoryBackendRef) (id : Nat) : Option MessageEntity :=
  alGet st.messages id

/-- Model of the message repository's `upsert` (lines 92-106): gated; a
previously-untracked id enters the retention set first (possibly evicting
the lowest id), then the entity is stored. -/
def message_upsert (st : InMemoryBackendRef) (e : MessageEntity) :
    InMemoryBackendRef :=
  if gateOn st EntityType.MESSAGE then
    let st₂ :=
      if (alGet st.messages e.id).isSome then st
      else insert_message_id st e.channel_id e.id
    { st₂ with messages := alInsert st₂.messages e.id e }
  else st

/-- Model of the message repository's `remove` (lines 77-90): gated; drops
the entity and untracks its id from its channel's set. -/
def message_remove (st : InMemoryBackendRef) (message_id : Nat) :
    InMemoryBackendRef :=
  if gateOn st EntityType.MESSAGE then
    match alGet st.messages message_id with
    | none => st
    | some message =>
      let st₂ := { st with messages := alErase st.messages message_id }
      match alGet st₂.channel_messages message.channel_id with
      | none => st₂
      | some s =>
        { st₂ with
          channel_messages :=
            alInsert st₂.channel_messages message.channel_id
              (s.filter (fun x => x ≠ message_id)) }
  else st

/-!
### The event-to-mutation engine (`base/src/cache.rs`)

The in-memory repository methods perform their map mutation eagerly when
called (their returned futures are already-resolved `future::ok(())`
values), so the engine's repository calls are modelled sequentially in the
order the engine issues them.  The backend error type is uninhabited, so
every processing function totally returns the next state; the Rust-side
result is always `Ok(())`.
-/

/-- Removal of one guild channel during guild deletion: the engine obtains
the channel entity from `guilds.channels`, which resolves each indexed id
by probing the text, voice and category maps in that order
(`repository.rs` lines 483-497), and removes it from the matching
repository (`cache.rs` lines 524-533). -/
def removeGuildChannel (st : InMemoryBackendRef) (cid : Nat) : InMemoryBackendRef :=
  if (alGet st.channels_text cid).isSome then text_channel_remove st cid
  else if (alGet st.channels_voice cid).isSome then voice_channel_remove st cid
  else if (alGet st.channels_category cid).isSome then category_channel_remove st cid
  else st

/-- Stage of guild deletion removing the guild's indexed channels
(`cache.rs` lines 524-533): each id of the guild's channel index is
resolved and removed. -/
def removeGuildChannels (st : InMemoryBackendRef) (gid : Nat) : InMemoryBackendRef :=
  (sGet st.guild_channels gid).foldl removeGuildChannel st

/-- Stage of guild deletion removing the guild's indexed emojis
(`cache.rs` lines 535-538). -/
def removeGuildEmojis (st : InMemoryBackendRef) (gid : Nat) : InMemoryBackendRef :=
  (sGet st.guild_emojis gid).foldl emoji_remove st

/-- Stage of guild deletion removing the guild's indexed members
(`cache.rs` lines 540-543): each is keyed by `(guild id, user id)`. -/
def removeGuildMembers (st : InMemoryBackendRef) (gid : Nat) : InMemoryBackendRef :=
  (sGet st.guild_members gid).foldl (fun s u => member_remove s (gid, u)) st

/-- Stage of guild deletion removing the guild's indexed presences
(`cache.rs` lines 545-548). -/
def removeGuildPresences (st : InMemoryBackendRef) (gid : Nat) : InMemoryBackendRef :=
  (sGet st.guild_presences gid).foldl (fun s u => presence_remove s (gid, u)) st

/-- Stage of guild deletion removing the guild's indexed roles
(`cache.rs` lines 550-553). -/
def removeGuildRoles (st : InMemoryBackendRef) (gid : Nat) : InMemoryBackendRef :=
  (sGet st.guild_roles gid).foldl role_remove st

/-- Stage of guild deletion removing the guild's indexed voice states
(`cache.rs` lines 555-558). -/
def removeGuildVoiceStates (st : InMemoryBackendRef) (gid : Nat) :
    InMemoryBackendRef :=
  (sGet st.guild_voice_states gid).foldl (fun s u => voice_state_remove s (gid, u)) st

/-- Model of `CacheUpdate<T> for GuildDelete::process` (`cache.rs` lines
496-563).  With the unavailable flag set, only the stored guild's
`unavailable` field is patched (nothing happens when no guild is stored);
otherwise the guild's indexed children (channels, emojis, members,
presences, roles, voice states) are removed and then the guild record
itself is removed. -/
def GuildDelete.process (e : GuildDelete) (st : InMemoryBackendRef) :
    InMemoryBackendRef :=
  if e.unavailable then
    match guild_get st e.id with
    | none => st
    | some guild => guild_upsert st { guild with unavailable := e.unavailable }
  else
    guild_remove
      (removeGuildVoiceStates
        (removeGuildRoles
          (removeGuildPresences
            (removeGuildMembers
              (removeGuildEmojis
                (removeGuildChannels st e.id) e.id) e.id) e.id) e.id) e.id) e.id

/-- Model of `CacheUpdate<T> for GuildUpdate::process` (`cache.rs` lines
580-596): fetch the stored guild; when nothing is stored the patch is
dropped; otherwise the stored guild merged with the partial-guild payload
is upserted.  `GuildEntity::update`, the merge applied to the stored
guild, is not present in the available sources and is abstracted as the
function argument `merge`. -/
def GuildUpdate.process (id : Nat) (merge : GuildEntity → GuildEntity)
    (st : InMemoryBackendRef) : InMemoryBackendRef :=
  match guild_get st id with
  | none => st
  | some guild => guild_upsert st (merge guild)

/-- Model of `CacheUpdate<T> for MemberUpdate::process` (`cache.rs` lines
624-649): fetch the stored member under `(guild_id, user.id)`; when
nothing is stored the patch is dropped; otherwise the event's user payload
is upserted into the user repository and the merged member is upserted. -/
def MemberUpdate.process (e : MemberUpdate) (st : InMemoryBackendRef) :
    InMemoryBackendRef :=
  match member_get st (e.guild_id, e.user.id) with
  | none => st
  | some member =>
    let st₁ := user_upsert st (UserEntity.ofUser e.user)
    member_upsert st₁ (member.update e)

/-- Model of `CacheUpdate<T> for MessageUpdate::process` (`cache.rs` lines
768-803): when the event carries attachments they are bulk-upserted; the
stored message, when present, is merged with the patch and upserted, and
when absent the patch is dropped. -/
def MessageUpdate.process (e : MessageUpdate) (st : InMemoryBackendRef) :
    InMemoryBackendRef :=
  let st₁ :=
    match e.attachments with
    | none => st
    | some attachments =>
      attachments.foldl
        (fun s a => attachment_upsert s (AttachmentEntity.ofAttachment e.id a)) st
  match message_get st₁ e.id with
  | none => st₁
  | some message => message_upsert st₁ (message.update e)

/-- Model of `CacheUpdate<T> for ChannelPinsUpdate::process` (`cache.rs`
lines 323-362): the untagged channel id is resolved by probing the group,
text-channel and private-channel repositories in that order; the first hit
has its last-pin timestamp patched and processing returns. -/
def ChannelPinsUpdate.process (e : ChannelPinsUpdate) (st : InMemoryBackendRef) :
    InMemoryBackendRef :=
  match group_get st e.channel_id with
  | some group =>
    group_upsert st { group with last_pin_timestamp := e.last_pin_timestamp }
  | none =>
    match text_channel_get st e.channel_id with
    | some text_channel =>
      text_channel_upsert st { text_channel with last_pin_timestamp := e.last_pin_timestamp }
    | none =>
      match private_channel_get st e.channel_id with
      | some private_channel =>
        private_channel_upsert st
          { private_channel with last_pin_timestamp := e.last_pin_timestamp }
      | none => st

/-- Model of `CacheUpdate<T> for VoiceStateUpdate::process` (`cache.rs`
lines 877-891): with no guild id in the voice state nothing is done;
otherwise the voice-state entity is upserted. -/
def VoiceStateUpdate.process (e : VoiceState) (st : InMemoryBackendRef) :
    InMemoryBackendRef :=
  match e.guild_id with
  | none => st
  | some guild_id => voice_state_upsert st (VoiceStateEntity.ofVoiceState e guild_id)

/-!
### Repository write operations, for quantifying over operation sequences
-/

/-- One repository write: an upsert or a remove against one of the
backend's repositories. -/
inductive RepoWrite where
  | upsertAttachment (e : AttachmentEntity)
  | removeAttachment (id : Nat)
  | upsertCategoryChannel (e : CategoryChannelEntity)
  | removeCategoryChannel (id : Nat)
  | upsertCurrentUser (e : CurrentUserEntity)
  | removeCurrentUser
  | upsertEmoji (e : EmojiEntity)
  | removeEmoji (id : Nat)
  | upsertGroup (e : GroupEntity)
  | removeGroup (id : Nat)
  | upsertGuild (e : GuildEntity)
  | removeGuild (id : Nat)
  | upsertMember (e : MemberEntity)
  | removeMember (id : Nat × Nat)
  | upsertMessage (e : MessageEntity)
  | removeMessage (id : Nat)
  | upsertPresence (e : PresenceEntity)
  | removePresence (id : Nat × Nat)
  | upsertPrivateChannel (e : PrivateChannelEntity)
  | removePrivateChannel (id : Nat)
  | upsertRole (e : RoleEntity)
  | removeRole (id : Nat)
  | upsertTextChannel (e : TextChannelEntity)
  | removeTextChannel (id : Nat)
  | upsertUser (e : UserEntity)
  | removeUser (id : Nat)
  | upsertVoiceChannel (e : VoiceChannelEntity)
  | removeVoiceChannel (id : Nat)
  | upsertVoiceState (e : VoiceStateEntity)
  | removeVoiceState (id : Nat × Nat)

/-- Apply one repository write to the backend state. -/
def applyWrite (st : InMemoryBackendRef) : RepoWrite → InMemoryBackendRef
  | .upsertAttachment e => attachment_upsert st e
  | .removeAttachment id => attachment_remove st id
  | .upsertCategoryChannel e => category_channel_upsert st e
  | .removeCategoryChannel id => category_channel_remove st id
  | .upsertCurrentUser e => current_user_upsert st e
  | .removeCurrentUser => current_user_remove st
  | .upsertEmoji e => emoji_upsert st e
  | .removeEmoji id => emoji_remove st id
  | .upsertGroup e => group_upsert st e
  | .removeGroup id => group_remove st id
  | .upsertGuild e => guild_upsert st e
  | .removeGuild id => guild_remove st id
  | .upsertMember e => member_upsert st e
  | .removeMember id => member_remove st id
  | .upsertMessage e => message_upsert st e
  | .removeMessage id => message_remove st id
  | .upsertPresence e => presence_upsert st e
  | .removePresence id => presence_remove st id
  | .upsertPrivateChannel e => private_channel_upsert st e
  | .removePrivateChannel id => private_channel_remove st id
  | .upsertRole e => role_upsert st e
  | .removeRole id => role_remove st id
  | .upsertTextChannel e => text_channel_upsert st e
  | .removeTextChannel id => text_channel_remove st id
  | .upsertUser e => user_upsert st e
  | .removeUser id => user_remove st id
  | .upsertVoiceChannel e => voice_channel_upsert st e
  | .removeVoiceChannel id => voice_channel_remove st id
  | .upsertVoiceState e => voice_state_upsert st e
  | .removeVoiceState id => voice_state_remove st id

/-- Apply a sequence of repository writes, oldest first. -/
def applyWrites (st : InMemoryBackendRef) (ops : List RepoWrite) :
    InMemoryBackendRef :=
  ops.foldl applyWrite st

/-- The fifteen entity types, for quantifying over the per-type
repositories. -/
inductive EntityKind where
  | attachment
  | categoryChannel
  | currentUser
  | emoji
  | group
  | guild
  | member
  | message
  | presence
  | privateChannel
  | role
  | textChannel
  | user
  | voiceChannel
  | voiceState
  deriving DecidableEq, Repr

/-- The gating flag of each entity kind. -/
def EntityKind.flag : EntityKind → Nat
  | .attachment => EntityType.ATTACHMENT
  | .categoryChannel => EntityType.CHANNEL_CATEGORY
  | .currentUser => EntityType.USER_CURRENT
  | .emoji => EntityType.EMOJI
  | .group => EntityType.CHANNEL_GROUP
  | .guild => EntityType.GUILD
  | .member => EntityType.MEMBER
  | .message => EntityType.MESSAGE
  | .presence => EntityType.PRESENCE
  | .privateChannel => EntityType.CHANNEL_PRIVATE
  | .role => EntityType.ROLE
  | .textChannel => EntityType.CHANNEL_TEXT
  | .user => EntityType.USER
  | .voiceChannel => EntityType.CHANNEL_VOICE
  | .voiceState => EntityType.VOICE_STATE

/-- Emptiness of one entity kind's primary storage. -/
def kindEmpty (st : InMemoryBackendRef) : EntityKind → Prop
  | .attachment => st.attachments = []
  | .categoryChannel => st.channels_category = []
  | .currentUser => st.user_current = none
  | .emoji => st.emojis = []
  | .group => st.groups = []
  | .guild => st.guilds = []
  | .member => st.members = []
  | .message => st.messages = []
  | .presence => st.presences = []
  | .privateChannel => st.channels_private = []
  | .role => st.roles = []
  | .textChannel => st.channels_text = []
  | .user => st.users = []
  | .voiceChannel => st.channels_voice = []
  | .voiceState => st.voice_states = []

/-!
### Small frame lemmas
-/

theorem user_upsert_members (st : InMemoryBackendRef) (u : UserEntity) :
    (user_upsert st u).members = st.members := by
  unfold user_upsert
  split <;> rfl

theorem attachment_upsert_messages (st : InMemoryBackendRef) (a : AttachmentEntity) :
    (attachment_upsert st a).messages = st.messages := by
  unfold attachment_upsert
  split <;> rfl

theorem attachment_fold_messages (mid : Nat) (l : List Attachment)
    (st : InMemoryBackendRef) :
    ((l.foldl (fun s a => attachment_upsert s (AttachmentEntity.ofAttachment mid a))
      st).messages) = st.messages := by
  induction l generalizing st with
  | nil => rfl
  | cons a t ih => simp [List.foldl_cons, ih, attachment_upsert_messages]

/-!
### Claim theorems: event-engine patch behaviour
-/

/-- C10: processing a voice-state update whose voice state carries no
guild id is a complete no-op on the backend state (the engine issues no
repository call; the uninhabited error type makes the result `Ok`). -/
theorem voiceStateUpdate_without_guild_is_noop (e : VoiceState)
    (st : InMemoryBackendRef) (h : e.guild_id = none) :
    VoiceStateUpdate.process e st = st := by
  simp [VoiceStateUpdate.process, h]

def vsNoGuild : VoiceState :=
  { channel_id := some 6, deaf := false, guild_id := none, member := none,
    mute := false, self_deaf := false, self_mute := false, self_stream := false,
    session_id := "session", suppress := false, token := none, user_id := 2 }

theorem voiceStateUpdate_without_guild_is_noop_witness :
    vsNoGuild.guild_id = none ∧
    VoiceStateUpdate.process vsNoGuild (emptyBackend Config.default) =
      emptyBackend Config.default :=
  ⟨rfl, voiceStateUpdate_without_guild_is_noop vsNoGuild (emptyBackend Config.default) rfl⟩

/-- C6: a guild delete carrying unavailable=true removes nothing: with no
stored guild the state is untouched, and with a stored guild the only
change is re-storing that guild with its `unavailable` field set to true
(every other repository, every other guild entry and every other field of
the stored guild are unchanged).  The hypothesis `g.id = e.id` records
that stored entities are keyed by their own id, which holds in every state
the repositories build, and `hgate` that guild writes are enabled. -/
theorem guildDelete_unavailable_patches_only_flag (e : GuildDelete)
    (st : InMemoryBackendRef) (h : e.unavailable = true)
    (hgate : gateOn st EntityType.GUILD = true) :
    (guild_get st e.id = none → GuildDelete.process e st = st) ∧
    ∀ g, guild_get st e.id = some g → g.id = e.id →
      GuildDelete.process e st =
        { st with guilds := alInsert st.guilds e.id { g with unavailable := true } } ∧
      guild_get (GuildDelete.process e st) e.id = some { g with unavailable := true } ∧
      ∀ gid₂, gid₂ ≠ e.id →
        guild_get (GuildDelete.process e st) gid₂ = guild_get st gid₂ := by
  constructor
  · intro hnone
    simp [GuildDelete.process, h, hnone]
  · intro g hsome hid
    have hproc : GuildDelete.process e st =
        { st with guilds := alInsert st.guilds e.id { g with unavailable := true } } := by
      simp [GuildDelete.process, h, hsome, guild_upsert, hgate, hid]
    refine ⟨hproc, ?_, ?_⟩
    · rw [hproc]
      simp [guild_get]
    · intro gid₂ hne
      rw [hproc]
      simp only [guild_get]
      exact alGet_insert_ne st.guilds e.id gid₂ _ (fun hc => hne hc.symm)

def unavailableGuild : GuildEntity :=
  { afk_channel_id := none, afk_timeout := 0, application_id := none,
    approximate_member_count := none, approximate_presence_count := none,
    banner := none, default_message_notifications := 0, description := none,
    discovery_splash := none, explicit_content_filter := 0, features := [],
    icon := none, id := 1, joined_at := none, large := false, lazy := none,
    max_members := none, max_presences := none, max_video_channel_users := none,
    member_count := none, mfa_level := 0, name := "guild", owner_id := 2,
    owner := none, permissions := none, preferred_locale := "en-US",
    premium_subscription_count := none, premium_tier := 0, region := "us-east",
    rules_channel_id := none, splash := none, system_channel_flags := 0,
    system_channel_id := none, unavailable := false, vanity_url_code := none,
    verification_level := 0, widget_channel_id := none, widget_enabled := none }

def unavailableScenario : InMemoryBackendRef :=
  guild_upsert (emptyBackend Config.default) unavailableGuild

theorem guildDelete_unavailable_patches_only_flag_witness :
    GuildDelete.process { id := 1, unavailable := true } unavailableScenario =
      { unavailableScenario with
        guilds := (alInsert unavailableScenario.guilds 1
          { unavailableGuild with unavailable := true }) } :=
  ((guildDelete_unavailable_patches_only_flag
      { id := 1, unavailable := true } unavailableScenario rfl (by decide)).2
    unavailableGuild (by decide) rfl).1

/-- C7: merging a member-update over a stored member never lets an
absent/unset optional patch field overwrite stored data: a patch carrying
nick=None preserves the stored nick, and an absent premium_since preserves
the stored value (this holds whether or not member writes are gated). -/
theorem memberUpdate_absent_fields_preserved (e : MemberUpdate)
    (st : InMemoryBackendRef) (m : MemberEntity)
    (hm : member_get st (e.guild_id, e.user.id) = some m) :
    (e.nick = none →
      (member_get (MemberUpdate.process e st) (e.guild_id, e.user.id)).map
        MemberEntity.nick = some m.nick) ∧
    (e.premium_since = none →
      (member_get (MemberUpdate.process e st) (e.guild_id, e.user.id)).map
        MemberEntity.premium_since = some m.premium_since) := by
  have hproc : MemberUpdate.process e st =
      member_upsert (user_upsert st (UserEntity.ofUser e.user)) (m.update e) := by
    simp [MemberUpdate.process, hm]
  rw [hproc]
  unfold member_upsert
  split
  · have hkey : ((m.update e).guild_id, (m.update e).user_id) = (e.guild_id, e.user.id) := by
      simp [MemberEntity.update]
    constructor
    · intro hnick
      simp [member_get, hkey, MemberEntity.update, hnick, Option.orElse]
    · intro hprem
      simp [member_get, hkey, MemberEntity.update, hprem, Option.orElse]
  · have hm₂ : alGet st.members (e.guild_id, e.user.id) = some m := hm
    constructor
    · intro _
      simp [member_get, user_upsert_members, hm₂]
    · intro _
      simp [member_get, user_upsert_members, hm₂]

def storedBob : MemberEntity :=
  { deaf := false, guild_id := 1, hoisted_role_id := none,
    joined_at := some "2012-11-21T10:00:00.40000+00:00", mute := false,
    nick := some "Bob", premium_since := some "2013-01-01T00:00:00.00000+00:00",
    role_ids := [], user_id := 2 }

def bobUser : User :=
  { avatar := none, bot := false, discriminator := "0001", email := none,
    flags := none, id := 2, locale := none, mfa_enabled := none, name := "bob",
    premium_type := none, public_flags := none, system := none, verified := none }

def bobPatch : MemberUpdate :=
  { guild_id := 1, joined_at := "2012-11-21T10:00:00.40000+00:00", nick := none,
    premium_since := none, roles := [], user := bobUser }

def bobScenario : InMemoryBackendRef :=
  member_upsert (emptyBackend Config.default) storedBob

theorem memberUpdate_absent_fields_preserved_witness :
    (member_get (MemberUpdate.process bobPatch bobScenario) (1, 2)).map
      MemberEntity.nick = some (some "Bob") :=
  (memberUpdate_absent_fields_preserved bobPatch bobScenario storedBob
    (by decide)).1 rfl

/-- C8: a field-patch event whose target entity is not stored is silently
dropped: guild-update and member-update leave the whole state unchanged,
and message-update performs no upsert of the target message (the message
repository is unchanged; the uninhabited error type makes every result
`Ok`). -/
theorem patch_without_target_is_dropped :
    (∀ (id : Nat) (merge : GuildEntity → GuildEntity) (st : InMemoryBackendRef),
      guild_get st id = none → GuildUpdate.process id merge st = st) ∧
    (∀ (e : MemberUpdate) (st : InMemoryBackendRef),
      member_get st (e.guild_id, e.user.id) = none → MemberUpdate.process e st = st) ∧
    (∀ (e : MessageUpdate) (st : InMemoryBackendRef),
      message_get st e.id = none →
        (MessageUpdate.process e st).messages = st.messages) := by
  refine ⟨?_, ?_, ?_⟩
  · intro id merge st hnone
    simp [GuildUpdate.process, hnone]
  · intro e st hnone
    simp [MemberUpdate.process, hnone]
  · intro e st hnone
    unfold MessageUpdate.process
    cases ha : e.attachments with
    | none =>
      simp only [ha]
      simp [message_get, hnone] at hnone ⊢
      simp [hnone]
    | some attachments =>
      simp only [ha]
      have hmsgs :
          ((attachments.foldl
            (fun s a => attachment_upsert s (AttachmentEntity.ofAttachment e.id a))
            st).messages) = st.messages := attachment_fold_messages e.id attachments st
      have hget :
          message_get
            (attachments.foldl
              (fun s a => attachment_upsert s (AttachmentEntity.ofAttachment e.id a))
              st) e.id = none := by
        simp [message_get, hmsgs]
        simp [message_get] at hnone
        exact hnone
      simp [hget, hmsgs]

def orphanPatch : MessageUpdate :=
  { attachments := none, author := none, channel_id := 5, content := some "x",
    edited_timestamp := none, embeds := none, guild_id := none, id := 42,
    kind := none, mention_everyone := none, mention_roles := none,
    mentions := none, pinned := none, timestamp := none, tts := none }

theorem patch_without_target_is_dropped_witness :
    GuildUpdate.process 1 (fun g => g) (emptyBackend Config.default) =
      emptyBackend Config.default ∧
    MemberUpdate.process bobPatch (emptyBackend Config.default) =
      emptyBackend Config.default ∧
    (MessageUpdate.process orphanPatch (emptyBackend Config.default)).messages =
      (emptyBackend Config.default).messages :=
  ⟨patch_without_target_is_dropped.1 1 (fun g => g) _ rfl,
   patch_without_target_is_dropped.2.1 bobPatch _ rfl,
   patch_without_target_is_dropped.2.2 orphanPatch _ rfl⟩

/-- C9: a channel-pins update resolves its untagged channel id by probing
groups, then text channels, then private channels, accepting the first
hit: when the id names a stored group, the whole effect is re-storing that
group with its last-pin timestamp patched — the text-channel and
private-channel repositories are unchanged (no entity is created there).
The hypothesis `g.id = e.channel_id` records that stored entities are
keyed by their own id, and `hgate` that group writes are enabled. -/
theorem pinsUpdate_group_hit_only_touches_group (e : ChannelPinsUpdate)
    (st : InMemoryBackendRef) (g : GroupEntity)
    (hg : group_get st e.channel_id = some g) (hid : g.id = e.channel_id)
    (hgate : gateOn st EntityType.CHANNEL_GROUP = true) :
    ChannelPinsUpdate.process e st =
      { st with groups := (alInsert st.groups e.channel_id
          { g with last_pin_timestamp := e.last_pin_timestamp }) } ∧
    group_get (ChannelPinsUpdate.process e st) e.channel_id =
      some { g with last_pin_timestamp := e.last_pin_timestamp } ∧
    (ChannelPinsUpdate.process e st).channels_text = st.channels_text ∧
    (ChannelPinsUpdate.process e st).channels_private = st.channels_private := by
  have hproc : ChannelPinsUpdate.process e st =
      { st with groups := (alInsert st.groups e.channel_id
          { g with last_pin_timestamp := e.last_pin_timestamp }) } := by
    simp [ChannelPinsUpdate.process, hg, group_upsert, hgate, hid]
  refine ⟨hproc, ?_, ?_, ?_⟩
  · rw [hproc]
    simp [group_get]
  · rw [hproc]
  · rw [hproc]

def pinsGroup : GroupEntity :=
  { application_id := none, icon := none, id := 3, kind := 3,
    last_message_id := none, last_pin_timestamp := none,
    name := some "group", owner_id := 2, recipient_ids := [2, 9] }

def pinsScenario : InMemoryBackendRef :=
  group_upsert (emptyBackend Config.default) pinsGroup

theorem pinsUpdate_group_hit_only_touches_group_witness :
    group_get
      (ChannelPinsUpdate.process
        { channel_id := 3, guild_id := none, last_pin_timestamp := some "t" }
        pinsScenario) 3 =
      some { pinsGroup with last_pin_timestamp := some "t" } :=
  (pinsUpdate_group_hit_only_touches_group
    { channel_id := 3, guild_id := none, last_pin_timestamp := some "t" }
    pinsScenario pinsGroup (by decide) rfl (by decide)).2.1

/-!
### Message retention claims
-/

/-- Configuration with the per-channel message retention bound set to 2. -/
def cfgBound2 : Config := { entity_types := EntityType.all, message_cache_size := 2 }

/-- A minimal message entity with the given id and channel. -/
def mkMsg (i ch : Nat) : MessageEntity :=
  { activity := none, application_id := none, attachments := [], author_id := 1,
    channel_id := ch, content := "", edited_timestamp := none, embeds := [],
    flags := none, guild_id := none, id := i, kind := 0, mention_channels := [],
    mention_everyone := false, mention_roles := [], mentions := [], pinned := false,
    reactions := [], timestamp := "", tts := false, webhook_id := none }

/-- Bound 2, messages 100, 101, 102 created in order in channel 5. -/
def retentionScenario : InMemoryBackendRef :=
  message_upsert
    (message_upsert
      (message_upsert (emptyBackend cfgBound2) (mkMsg 100 5)) (mkMsg 101 5))
    (mkMsg 102 5)

/-- C2 counterexample: with the bound configured to 2, upserting messages
100, 101, 102 in order does not leave message 101 retrievable — the
eviction check fires as soon as an insertion makes the tracked set's size
reach the bound, so message 101 is evicted when 102 is inserted, and the
claimed outcome get(100)=None, get(101)=Some, get(102)=Some is false. -/
theorem retention_bound2_claimed_outcome_false :
    ¬ (message_get retentionScenario 100 = none ∧
       (message_get retentionScenario 101).isSome ∧
       (message_get retentionScenario 102).isSome) := by
  decide

/-- C2 amended: with bound 2 the scenario leaves get(100)=None,
get(101)=None, get(102)=Some; in general, upserting a new,
previously-untracked message id whose insertion makes its channel's
tracked set reach the bound evicts the single lowest id of the enlarged
set from the tracked set and removes it from the primary message map,
after which the new entity is stored. -/
theorem retention_evicts_lowest_on_reaching_bound :
    (message_get retentionScenario 100 = none ∧
     message_get retentionScenario 101 = none ∧
     message_get retentionScenario 102 = some (mkMsg 102 5)) ∧
    ∀ (st : InMemoryBackendRef) (e : MessageEntity) (lo : Nat) (rest : List Nat),
      gateOn st EntityType.MESSAGE = true →
      st.config.message_cache_size ≠ 0 →
      message_get st e.id = none →
      btInsert e.id (sGet st.channel_messages e.channel_id) = lo :: rest →
      ¬ (lo :: rest).length < st.config.message_cache_size →
      message_upsert st e =
        { st with
          channel_messages := alInsert st.channel_messages e.channel_id rest
          messages := alInsert (alErase st.messages lo) e.id e } := by
  constructor
  · exact ⟨by decide, by decide, by decide⟩
  · intro st e lo rest hgate hsize hget hbt hlen
    have hget₂ : alGet st.messages e.id = none := hget
    unfold message_upsert
    rw [if_pos hgate, hget₂]
    simp only [Option.isSome_none, Bool.false_eq_true, if_false]
    unfold insert_message_id
    rw [if_neg hsize]
    simp only [hbt, if_neg hlen]

/-- State after the first message of the retention scenario. -/
def retentionStep1 : InMemoryBackendRef :=
  message_upsert (emptyBackend cfgBound2) (mkMsg 100 5)

theorem retention_evicts_lowest_on_reaching_bound_witness :
    message_upsert retentionStep1 (mkMsg 101 5) =
      { retentionStep1 with
        channel_messages := alInsert retentionStep1.channel_messages 5 [101]
        messages := (alInsert (alErase retentionStep1.messages 100) 101
          (mkMsg 101 5)) } :=
  retention_evicts_lowest_on_reaching_bound.2 retentionStep1 (mkMsg 101 5) 100 [101]
    (by decide) (by decide) (by decide) (by decide) (by decide)

/-- Bound 2, messages 10, 5, 4 created in order in channel 7: each new id
is lower than every tracked id. -/
def leakScenario : InMemoryBackendRef :=
  message_upsert
    (message_upsert
      (message_upsert (emptyBackend cfgBound2) (mkMsg 10 7)) (mkMsg 5 7))
    (mkMsg 4 7)

/-- C3: the retention invariant is violated by the code.  With bound 2,
upserting new messages 10, 5, 4 (each id lower than all tracked ids)
leaves three messages of channel 7 in the primary map, all retrievable.
The eviction path removes the evicted id from the primary map before the
new entity is inserted, so when the evicted lowest id is the new id
itself the new message stays cached, untracked, forever — contradicting
the repository's own documentation that such a message "may be inserted
and then immediately removed". -/
theorem retention_bound_violated_by_low_id_upserts :
    leakScenario.config.message_cache_size = 2 ∧
    (leakScenario.messages.filter (fun p => p.2.channel_id = 7)).length = 3 ∧
    message_get leakScenario 10 = some (mkMsg 10 7) ∧
    message_get leakScenario 5 = some (mkMsg 5 7) ∧
    message_get leakScenario 4 = some (mkMsg 4 7) := by
  refine ⟨rfl, by decide, by decide, by decide, by decide⟩

/-!
### Gating claims: machinery over write sequences
-/

theorem applyWrite_config (st : InMemoryBackendRef) (op : RepoWrite) :
    (applyWrite st op).config = st.config := by
  cases op <;>
    simp only [applyWrite, attachment_upsert, attachment_remove, category_channel_upsert,
      category_channel_remove, current_user_upsert, current_user_remove, emoji_upsert,
      emoji_remove, group_upsert, group_remove, guild_upsert, guild_remove, member_upsert,
      member_remove, message_upsert, message_remove, presence_upsert, presence_remove,
      private_channel_upsert, private_channel_remove, role_upsert, role_remove,
      text_channel_upsert, text_channel_remove, user_upsert, user_remove,
      voice_channel_upsert, voice_channel_remove, voice_state_upsert, voice_state_remove,
      insert_message_id] <;>
    (repeat' split) <;> rfl

set_option maxHeartbeats 2000000 in
theorem kindEmpty_preserved (st : InMemoryBackendRef) (k : EntityKind)
    (hk : EntityType.contains st.config.entity_types k.flag = false)
    (h : kindEmpty st k) (op : RepoWrite) : kindEmpty (applyWrite st op) k := by
  cases k <;> simp only [kindEmpty, EntityKind.flag] at h hk ⊢ <;> cases op <;>
    simp only [applyWrite, gateOn, attachment_upsert, attachment_remove,
      category_channel_upsert, category_channel_remove, current_user_upsert,
      current_user_remove, emoji_upsert, emoji_remove, group_upsert, group_remove,
      guild_upsert, guild_remove, member_upsert, member_remove, message_upsert,
      message_remove, presence_upsert, presence_remove, private_channel_upsert,
      private_channel_remove, role_upsert, role_remove, text_channel_upsert,
      text_channel_remove, user_upsert, user_remove, voice_channel_upsert,
      voice_channel_remove, voice_state_upsert, voice_state_remove,
      insert_message_id, hk] <;>
    (repeat' split) <;>
    (first
      | exact h
      | (rw [h]; rfl)
      | simp_all [alGet, alErase])

theorem kindEmpty_applyWrites (cfg : Config) (k : EntityKind)
    (hk : EntityType.contains cfg.entity_types k.flag = false) :
    ∀ (ops : List RepoWrite) (st : InMemoryBackendRef), st.config = cfg →
      kindEmpty st k →
      kindEmpty (applyWrites st ops) k ∧ (applyWrites st ops).config = cfg := by
  intro ops
  induction ops with
  | nil => intro st hc h; exact ⟨h, hc⟩
  | cons op t ih =>
    intro st hc h
    have hk₂ : EntityType.contains st.config.entity_types k.flag = false := by
      rw [hc]; exact hk
    have hstep := kindEmpty_preserved st k hk₂ h op
    have hcfg : (applyWrite st op).config = cfg := by
      rw [applyWrite_config]; exact hc
    exact ih (applyWrite st op) hcfg hstep

/-- Statement that every upsert against one kind's repository leaves the
state untouched. -/
def kindUpsertNoop (st : InMemoryBackendRef) : EntityKind → Prop
  | .attachment => ∀ e, attachment_upsert st e = st
  | .categoryChannel => ∀ e, category_channel_upsert st e = st
  | .currentUser => ∀ e, current_user_upsert st e = st
  | .emoji => ∀ e, emoji_upsert st e = st
  | .group => ∀ e, group_upsert st e = st
  | .guild => ∀ e, guild_upsert st e = st
  | .member => ∀ e, member_upsert st e = st
  | .message => ∀ e, message_upsert st e = st
  | .presence => ∀ e, presence_upsert st e = st
  | .privateChannel => ∀ e, private_channel_upsert st e = st
  | .role => ∀ e, role_upsert st e = st
  | .textChannel => ∀ e, text_channel_upsert st e = st
  | .user => ∀ e, user_upsert st e = st
  | .voiceChannel => ∀ e, voice_channel_upsert st e = st
  | .voiceState => ∀ e, voice_state_upsert st e = st

/-- Statement that every get against one kind's repository returns `none`. -/
def kindGetNoneAll (st : InMemoryBackendRef) : EntityKind → Prop
  | .attachment => ∀ id, attachment_get st id = none
  | .categoryChannel => ∀ id, category_channel_get st id = none
  | .currentUser => current_user_get st = none
  | .emoji => ∀ id, emoji_get st id = none
  | .group => ∀ id, group_get st id = none
  | .guild => ∀ id, guild_get st id = none
  | .member => ∀ id, member_get st id = none
  | .message => ∀ id, message_get st id = none
  | .presence => ∀ id, presence_get st id = none
  | .privateChannel => ∀ id, private_channel_get st id = none
  | .role => ∀ id, role_get st id = none
  | .textChannel => ∀ id, text_channel_get st id = none
  | .user => ∀ id, user_get st id = none
  | .voiceChannel => ∀ id, voice_channel_get st id = none
  | .voiceState => ∀ id, voice_state_get st id = none

theorem kindUpsertNoop_of_disabled (st : InMemoryBackendRef) (k : EntityKind)
    (hk : EntityType.contains st.config.entity_types k.flag = false) :
    kindUpsertNoop st k := by
  cases k <;> simp only [EntityKind.flag] at hk <;>
    simp only [kindUpsertNoop] <;> intro e <;>
    simp only [attachment_upsert, category_channel_upsert, current_user_upsert,
      emoji_upsert, group_upsert, guild_upsert, member_upsert, message_upsert,
      presence_upsert, private_channel_upsert, role_upsert, text_channel_upsert,
      user_upsert, voice_channel_upsert, voice_state_upsert, gateOn, hk] <;>
    simp

theorem kindGetNoneAll_of_empty (st : InMemoryBackendRef) (k : EntityKind)
    (h : kindEmpty st k) : kindGetNoneAll st k := by
  cases k <;> simp only [kindEmpty] at h <;>
    simp only [kindGetNoneAll, attachment_get, category_channel_get, current_user_get,
      emoji_get, group_get, guild_get, member_get, message_get, presence_get,
      private_channel_get, role_get, text_channel_get, user_get, voice_channel_get,
      voice_state_get, h] <;>
    simp [alGet]

theorem disabledWrites_noop_and_none (cfg : Config) (k : EntityKind)
    (hk : EntityType.contains cfg.entity_types k.flag = false)
    (ops : List RepoWrite) :
    kindUpsertNoop (applyWrites (emptyBackend cfg) ops) k ∧
    kindGetNoneAll (applyWrites (emptyBackend cfg) ops) k := by
  have hempty : kindEmpty (emptyBackend cfg) k := by
    cases k <;> simp [kindEmpty, emptyBackend]
  have hmain := kindEmpty_applyWrites cfg k hk ops (emptyBackend cfg) rfl hempty
  refine ⟨?_, kindGetNoneAll_of_empty _ k hmain.1⟩
  apply kindUpsertNoop_of_disabled
  rw [hmain.2]
  exact hk

/-- C4: with an entity type excluded from the configured bitset, after any
sequence of repository writes starting from a freshly built backend, that
type's repository is observably empty: every upsert of the type is a no-op
(trivially returning Ok, the error type being uninhabited), and every get
of the type returns `none`. -/
theorem disabled_type_repository_observably_empty (cfg : Config) (k : EntityKind)
    (hk : EntityType.contains cfg.entity_types k.flag = false)
    (ops : List RepoWrite) :
    kindUpsertNoop (applyWrites (emptyBackend cfg) ops) k ∧
    kindGetNoneAll (applyWrites (emptyBackend cfg) ops) k :=
  disabledWrites_noop_and_none cfg k hk ops

/-- Configuration caching only users: messages are gated off. -/
def cfgUserOnly : Config :=
  { entity_types := EntityType.USER, message_cache_size := 100 }

theorem disabled_type_repository_observably_empty_witness :
    kindUpsertNoop
      (applyWrites (emptyBackend cfgUserOnly) [RepoWrite.upsertMessage (mkMsg 1 5)])
      .message ∧
    kindGetNoneAll
      (applyWrites (emptyBackend cfgUserOnly) [RepoWrite.upsertMessage (mkMsg 1 5)])
      .message :=
  disabled_type_repository_observably_empty cfgUserOnly .message (by decide)
    [RepoWrite.upsertMessage (mkMsg 1 5)]

/-- Statement of the round trip for one kind: upserting an entity and then
getting its id (as `Entity::id()` computes it) returns the same entity. -/
def kindRoundTrip (st : InMemoryBackendRef) : EntityKind → Prop
  | .attachment => ∀ e, attachment_get (attachment_upsert st e) e.id = some e
  | .categoryChannel => ∀ e, category_channel_get (category_channel_upsert st e) e.id = some e
  | .currentUser => ∀ e, current_user_get (current_user_upsert st e) = some e
  | .emoji => ∀ e, emoji_get (emoji_upsert st e) e.id = some e
  | .group => ∀ e, group_get (group_upsert st e) e.id = some e
  | .guild => ∀ e, guild_get (guild_upsert st e) e.id = some e
  | .member => ∀ e, member_get (member_upsert st e) (e.guild_id, e.user_id) = some e
  | .message => ∀ e, message_get (message_upsert st e) e.id = some e
  | .presence => ∀ e, presence_get (presence_upsert st e) (e.guild_id, e.user_id) = some e
  | .privateChannel => ∀ e, private_channel_get (private_channel_upsert st e) e.id = some e
  | .role => ∀ e, role_get (role_upsert st e) e.id = some e
  | .textChannel => ∀ e, text_channel_get (text_channel_upsert st e) e.id = some e
  | .user => ∀ e, user_get (user_upsert st e) e.id = some e
  | .voiceChannel => ∀ e, voice_channel_get (voice_channel_upsert st e) e.id = some e
  | .voiceState => ∀ e, voice_state_get (voice_state_upsert st e) (e.guild_id, e.user_id) = some e

/-- Statement that upserting an entity of one kind and then getting its id
returns `none` (the gated-off behaviour). -/
def kindUpsertThenGetNone (st : InMemoryBackendRef) : EntityKind → Prop
  | .attachment => ∀ e, attachment_get (attachment_upsert st e) e.id = none
  | .categoryChannel => ∀ e, category_channel_get (category_channel_upsert st e) e.id = none
  | .currentUser => ∀ e, current_user_get (current_user_upsert st e) = none
  | .emoji => ∀ e, emoji_get (emoji_upsert st e) e.id = none
  | .group => ∀ e, group_get (group_upsert st e) e.id = none
  | .guild => ∀ e, guild_get (guild_upsert st e) e.id = none
  | .member => ∀ e, member_get (member_upsert st e) (e.guild_id, e.user_id) = none
  | .message => ∀ e, message_get (message_upsert st e) e.id = none
  | .presence => ∀ e, presence_get (presence_upsert st e) (e.guild_id, e.user_id) = none
  | .privateChannel => ∀ e, private_channel_get (private_channel_upsert st e) e.id = none
  | .role => ∀ e, role_get (role_upsert st e) e.id = none
  | .textChannel => ∀ e, text_channel_get (text_channel_upsert st e) e.id = none
  | .user => ∀ e, user_get (user_upsert st e) e.id = none
  | .voiceChannel => ∀ e, voice_channel_get (voice_channel_upsert st e) e.id = none
  | .voiceState => ∀ e, voice_state_get (voice_state_upsert st e) (e.guild_id, e.user_id) = none

set_option maxHeartbeats 1000000 in
theorem kindRoundTrip_of_enabled (st : InMemoryBackendRef) (k : EntityKind)
    (hk : EntityType.contains st.config.entity_types k.flag = true) :
    kindRoundTrip st k := by
  cases k <;> simp only [EntityKind.flag] at hk <;>
    simp only [kindRoundTrip] <;> intro e <;>
    simp only [attachment_upsert, category_channel_upsert, current_user_upsert,
      emoji_upsert, group_upsert, guild_upsert, member_upsert, message_upsert,
      presence_upsert, private_channel_upsert, role_upsert, text_channel_upsert,
      user_upsert, voice_channel_upsert, voice_state_upsert, gateOn, hk,
      insert_message_id, if_true] <;>
    (repeat' split) <;>
    simp [attachment_get, category_channel_get, current_user_get, emoji_get,
      group_get, guild_get, member_get, message_get, presence_get,
      private_channel_get, role_get, text_channel_get, user_get,
      voice_channel_get, voice_state_get, alGet_insert_self]

theorem kindUpsertThenGetNone_of (st : InMemoryBackendRef) (k : EntityKind)
    (hnoop : kindUpsertNoop st k) (hnone : kindGetNoneAll st k) :
    kindUpsertThenGetNone st k := by
  cases k <;>
    simp only [kindUpsertNoop] at hnoop <;>
    simp only [kindGetNoneAll] at hnone <;>
    simp only [kindUpsertThenGetNone] <;> intro e <;> rw [hnoop e] <;>
    (first | exact hnone _ | exact hnone)

/-- C5: for every entity type, upserting an entity and then getting its id
on a backend running the given configuration returns the entity
field-for-field; when the type is gated off, upsert-then-get instead
returns `none` (after any write sequence from a freshly built backend). -/
theorem upsert_then_get_round_trip (k : EntityKind) (cfg : Config) :
    (∀ st : InMemoryBackendRef, st.config = cfg →
      EntityType.contains cfg.entity_types k.flag = true → kindRoundTrip st k) ∧
    (EntityType.contains cfg.entity_types k.flag = false →
      ∀ ops : List RepoWrite,
        kindUpsertThenGetNone (applyWrites (emptyBackend cfg) ops) k) := by
  constructor
  · intro st hc hk
    exact kindRoundTrip_of_enabled st k (by rw [hc]; exact hk)
  · intro hk ops
    have h := disabledWrites_noop_and_none cfg k hk ops
    exact kindUpsertThenGetNone_of _ k h.1 h.2

def someUser : UserEntity :=
  { avatar := none, bot := false, discriminator := "0001", email := none,
    flags := none, id := 9, locale := none, mfa_enabled := none, name := "u",
    premium_type := none, public_flags := none, system := none, verified := none }

theorem upsert_then_get_round_trip_witness :
    user_get (user_upsert (emptyBackend Config.default) someUser) someUser.id =
      some someUser ∧
    message_get (message_upsert (applyWrites (emptyBackend cfgUserOnly) [])
      (mkMsg 1 5)) (mkMsg 1 5).id = none :=
  ⟨(upsert_then_get_round_trip .user Config.default).1 (emptyBackend Config.default)
      rfl (by decide) someUser,
   (upsert_then_get_round_trip .message cfgUserOnly).2 (by decide) [] (mkMsg 1 5)⟩

/-!
### Guild-deletion cascade: generic fold lemmas
-/

theorem foldl_proj_const {σ α : Type} (f : σ → Nat → σ) (proj : σ → α)
    (hf : ∀ s n, proj (f s n) = proj s) (l : List Nat) (st : σ) :
    proj (l.foldl f st) = proj st := by
  induction l generalizing st with
  | nil => rfl
  | cons n t ih => rw [List.foldl_cons, ih, hf]

theorem alGet_foldl_erase_none {σ κ α : Type} [DecidableEq κ] (f : σ → Nat → σ)
    (proj : σ → List (κ × α)) (key : Nat → κ)
    (hf : ∀ s n, proj (f s n) = alErase (proj s) (key n)) :
    ∀ (l : List Nat) (st : σ) (k : κ), alGet (proj st) k = none →
      alGet (proj (l.foldl f st)) k = none := by
  intro l
  induction l with
  | nil => intro st k h; exact h
  | cons n t ih =>
    intro st k h
    rw [List.foldl_cons]
    apply ih
    rw [hf]
    by_cases hk : key n = k
    · rw [hk]; exact alGet_erase_self _ _
    · rw [alGet_erase_ne _ _ _ hk]; exact h

theorem alGet_foldl_erase_of_mem {σ κ α : Type} [DecidableEq κ] (f : σ → Nat → σ)
    (proj : σ → List (κ × α)) (key : Nat → κ)
    (hf : ∀ s n, proj (f s n) = alErase (proj s) (key n)) :
    ∀ (l : List Nat) (st : σ) (n₀ : Nat), n₀ ∈ l →
      alGet (proj (l.foldl f st)) (key n₀) = none := by
  intro l
  induction l with
  | nil => intro st n₀ h; cases h
  | cons n t ih =>
    intro st n₀ hmem
    rw [List.foldl_cons]
    rcases List.mem_cons.mp hmem with h | h
    · subst h
      apply alGet_foldl_erase_none f proj key hf
      rw [hf]
      exact alGet_erase_self _ _
    · exact ih (f st n) n₀ h

theorem isSome_false_eq_none {α : Type} {o : Option α} (h : o.isSome = false) :
    o = none := by
  cases o with
  | none => rfl
  | some v => cases h

/-- Membership of the found binding in the association list. -/
theorem alGet_mem {κ α : Type} [DecidableEq κ] (l : List (κ × α)) (k : κ) (v : α)
    (h : alGet l k = some v) : (k, v) ∈ l := by
  induction l with
  | nil => cases h
  | cons hd t ih =>
    obtain ⟨k₂, v₂⟩ := hd
    by_cases hk : k₂ = k
    · subst hk
      simp only [alGet, if_pos rfl] at h
      cases h
      exact List.mem_cons_self _ _
    · simp only [alGet, if_neg hk] at h
      exact List.mem_cons_of_mem _ (ih h)

/-!
### Guild-deletion cascade: channel probing lemmas
-/

theorem removeGuildChannel_text_none (st : InMemoryBackendRef) (c k : Nat)
    (h : alGet st.channels_text k = none) :
    alGet (removeGuildChannel st c).channels_text k = none := by
  unfold removeGuildChannel
  split_ifs with h₁ h₂ h₃
  · show alGet (alErase st.channels_text c) k = none
    by_cases hk : c = k
    · subst hk; exact alGet_erase_self _ _
    · rw [alGet_erase_ne _ _ _ hk]; exact h
  · exact h
  · exact h
  · exact h

theorem removeGuildChannel_voice_none (st : InMemoryBackendRef) (c k : Nat)
    (h : alGet st.channels_voice k = none) :
    alGet (removeGuildChannel st c).channels_voice k = none := by
  unfold removeGuildChannel
  split_ifs with h₁ h₂ h₃
  · exact h
  · show alGet (alErase st.channels_voice c) k = none
    by_cases hk : c = k
    · subst hk; exact alGet_erase_self _ _
    · rw [alGet_erase_ne _ _ _ hk]; exact h
  · exact h
  · exact h

theorem removeGuildChannel_category_none (st : InMemoryBackendRef) (c k : Nat)
    (h : alGet st.channels_category k = none) :
    alGet (removeGuildChannel st c).channels_category k = none := by
  unfold removeGuildChannel
  split_ifs with h₁ h₂ h₃
  · exact h
  · exact h
  · show alGet (alErase st.channels_category c) k = none
    by_cases hk : c = k
    · subst hk; exact alGet_erase_self _ _
    · rw [alGet_erase_ne _ _ _ hk]; exact h
  · exact h

theorem removeGuildChannel_text_self (st : InMemoryBackendRef) (c : Nat) :
    alGet (removeGuildChannel st c).channels_text c = none := by
  unfold removeGuildChannel
  split_ifs with h₁ h₂ h₃
  · exact alGet_erase_self _ _
  · simp only [Bool.not_eq_true] at h₁
    exact isSome_false_eq_none h₁
  · simp only [Bool.not_eq_true] at h₁
    exact isSome_false_eq_none h₁
  · simp only [Bool.not_eq_true] at h₁
    exact isSome_false_eq_none h₁

theorem removeGuildChannel_voice_self (st : InMemoryBackendRef) (c : Nat)
    (htext : alGet st.channels_text c = none) :
    alGet (removeGuildChannel st c).channels_voice c = none := by
  unfold removeGuildChannel
  split_ifs with h₁ h₂ h₃
  · rw [htext] at h₁; cases h₁
  · exact alGet_erase_self _ _
  · simp only [Bool.not_eq_true] at h₂
    exact isSome_false_eq_none h₂
  · simp only [Bool.not_eq_true] at h₂
    exact isSome_false_eq_none h₂

theorem removeGuildChannel_category_self (st : InMemoryBackendRef) (c : Nat)
    (htext : alGet st.channels_text c = none)
    (hvoice : alGet st.channels_voice c = none) :
    alGet (removeGuildChannel st c).channels_category c = none := by
  unfold removeGuildChannel
  split_ifs with h₁ h₂ h₃
  · rw [htext] at h₁; cases h₁
  · rw [hvoice] at h₂; cases h₂
  · exact alGet_erase_self _ _
  · simp only [Bool.not_eq_true] at h₃
    exact isSome_false_eq_none h₃

theorem foldl_removeGuildChannel_text_none :
    ∀ (l : List Nat) (st : InMemoryBackendRef) (k : Nat),
      alGet st.channels_text k = none →
      alGet ((l.foldl removeGuildChannel st).channels_text) k = none := by
  intro l
  induction l with
  | nil => intro st k h; exact h
  | cons n t ih =>
    intro st k h
    rw [List.foldl_cons]
    exact ih _ k (removeGuildChannel_text_none st n k h)

theorem foldl_removeGuildChannel_voice_none :
    ∀ (l : List Nat) (st : InMemoryBackendRef) (k : Nat),
      alGet st.channels_voice k = none →
      alGet ((l.foldl removeGuildChannel st).channels_voice) k = none := by
  intro l
  induction l with
  | nil => intro st k h; exact h
  | cons n t ih =>
    intro st k h
    rw [List.foldl_cons]
    exact ih _ k (removeGuildChannel_voice_none st n k h)

theorem foldl_removeGuildChannel_category_none :
    ∀ (l : List Nat) (st : InMemoryBackendRef) (k : Nat),
      alGet st.channels_category k = none →
      alGet ((l.foldl removeGuildChannel st).channels_category) k = none := by
  intro l
  induction l with
  | nil => intro st k h; exact h
  | cons n t ih =>
    intro st k h
    rw [List.foldl_cons]
    exact ih _ k (removeGuildChannel_category_none st n k h)

theorem foldl_removeGuildChannel_text_of_mem :
    ∀ (l : List Nat) (st : InMemoryBackendRef) (cid : Nat), cid ∈ l →
      alGet ((l.foldl removeGuildChannel st).channels_text) cid = none := by
  intro l
  induction l with
  | nil => intro st cid h; cases h
  | cons n t ih =>
    intro st cid hmem
    rw [List.foldl_cons]
    rcases List.mem_cons.mp hmem with h | h
    · subst h
      exact foldl_removeGuildChannel_text_none t _ cid
        (removeGuildChannel_text_self st cid)
    · exact ih _ cid h

theorem foldl_removeGuildChannel_voice_of_mem :
    ∀ (l : List Nat) (st : InMemoryBackendRef) (cid : Nat), cid ∈ l →
      alGet st.channels_text cid = none →
      alGet ((l.foldl removeGuildChannel st).channels_voice) cid = none := by
  intro l
  induction l with
  | nil => intro st cid h; cases h
  | cons n t ih =>
    intro st cid hmem htext
    rw [List.foldl_cons]
    rcases List.mem_cons.mp hmem with h | h
    · subst h
      exact foldl_removeGuildChannel_voice_none t _ cid
        (removeGuildChannel_voice_self st cid htext)
    · exact ih _ cid h (removeGuildChannel_text_none st n cid htext)

theorem foldl_removeGuildChannel_category_of_mem :
    ∀ (l : List Nat) (st : InMemoryBackendRef) (cid : Nat), cid ∈ l →
      alGet st.channels_text cid = none →
      alGet st.channels_voice cid = none →
      alGet ((l.foldl removeGuildChannel st).channels_category) cid = none := by
  intro l
  induction l with
  | nil => intro st cid h; cases h
  | cons n t ih =>
    intro st cid hmem htext hvoice
    rw [List.foldl_cons]
    rcases List.mem_cons.mp hmem with h | h
    · subst h
      exact foldl_removeGuildChannel_category_none t _ cid
        (removeGuildChannel_category_self st cid htext hvoice)
    · exact ih _ cid h (removeGuildChannel_text_none st n cid htext)
        (removeGuildChannel_voice_none st n cid hvoice)

/-!
### Guild-deletion cascade: stage frame lemmas
-/

theorem removeGuildChannel_guilds (s : InMemoryBackendRef) (n : Nat) :
    (removeGuildChannel s n).guilds = s.guilds := by
  unfold removeGuildChannel
  split_ifs <;> rfl

theorem removeGuildChannel_members (s : InMemoryBackendRef) (n : Nat) :
    (removeGuildChannel s n).members = s.members := by
  unfold removeGuildChannel
  split_ifs <;> rfl

theorem removeGuildChannel_presences (s : InMemoryBackendRef) (n : Nat) :
    (removeGuildChannel s n).presences = s.presences := by
  unfold removeGuildChannel
  split_ifs <;> rfl

theorem removeGuildChannel_voice_states (s : InMemoryBackendRef) (n : Nat) :
    (removeGuildChannel s n).voice_states = s.voice_states := by
  unfold removeGuildChannel
  split_ifs <;> rfl

theorem removeGuildChannel_roles (s : InMemoryBackendRef) (n : Nat) :
    (removeGuildChannel s n).roles = s.roles := by
  unfold removeGuildChannel
  split_ifs <;> rfl

theorem removeGuildChannel_emojis (s : InMemoryBackendRef) (n : Nat) :
    (removeGuildChannel s n).emojis = s.emojis := by
  unfold removeGuildChannel
  split_ifs <;> rfl

theorem removeGuildChannel_guild_members (s : InMemoryBackendRef) (n : Nat) :
    (removeGuildChannel s n).guild_members = s.guild_members := by
  unfold removeGuildChannel
  split_ifs <;> rfl

theorem removeGuildChannel_guild_presences (s : InMemoryBackendRef) (n : Nat) :
    (removeGuildChannel s n).guild_presences = s.guild_presences := by
  unfold removeGuildChannel
  split_ifs <;> rfl

theorem removeGuildChannel_guild_roles (s : InMemoryBackendRef) (n : Nat) :
    (removeGuildChannel s n).guild_roles = s.guild_roles := by
  unfold removeGuildChannel
  split_ifs <;> rfl

theorem removeGuildChannel_guild_emojis (s : InMemoryBackendRef) (n : Nat) :
    (removeGuildChannel s n).guild_emojis = s.guild_emojis := by
  unfold removeGuildChannel
  split_ifs <;> rfl

theorem removeGuildChannel_guild_voice_states (s : InMemoryBackendRef) (n : Nat) :
    (removeGuildChannel s n).guild_voice_states = s.guild_voice_states := by
  unfold removeGuildChannel
  split_ifs <;> rfl

theorem removeGuildChannels_guilds (st : InMemoryBackendRef) (gid : Nat) :
    (removeGuildChannels st gid).guilds = st.guilds :=
  foldl_proj_const removeGuildChannel InMemoryBackendRef.guilds removeGuildChannel_guilds _ st

theorem removeGuildChannels_members (st : InMemoryBackendRef) (gid : Nat) :
    (removeGuildChannels st gid).members = st.members :=
  foldl_proj_const removeGuildChannel InMemoryBackendRef.members removeGuildChannel_members _ st

theorem removeGuildChannels_presences (st : InMemoryBackendRef) (gid : Nat) :
    (removeGuildChannels st gid).presences = st.presences :=
  foldl_proj_const removeGuildChannel InMemoryBackendRef.presences removeGuildChannel_presences _ st

theorem removeGuildChannels_voice_states (st : InMemoryBackendRef) (gid : Nat) :
    (removeGuildChannels st gid).voice_states = st.voice_states :=
  foldl_proj_const removeGuildChannel InMemoryBackendRef.voice_states removeGuildChannel_voice_states _ st

theorem removeGuildChannels_roles (st : InMemoryBackendRef) (gid : Nat) :
    (removeGuildChannels st gid).roles = st.roles :=
  foldl_proj_const removeGuildChannel InMemoryBackendRef.roles removeGuildChannel_roles _ st

theorem removeGuildChannels_emojis (st : InMemoryBackendRef) (gid : Nat) :
    (removeGuildChannels st gid).emojis = st.emojis :=
  foldl_proj_const removeGuildChannel InMemoryBackendRef.emojis removeGuildChannel_emojis _ st

theorem removeGuildChannels_guild_members (st : InMemoryBackendRef) (gid : Nat) :
    (removeGuildChannels st gid).guild_members = st.guild_members :=
  foldl_proj_const removeGuildChannel InMemoryBackendRef.guild_members removeGuildChannel_guild_members _ st

theorem removeGuildChannels_guild_presences (st : InMemoryBackendRef) (gid : Nat) :
    (removeGuildChannels st gid).guild_presences = st.guild_presences :=
  foldl_proj_const removeGuildChannel InMemoryBackendRef.guild_presences removeGuildChannel_guild_presences _ st

theorem removeGuildChannels_guild_roles (st : InMemoryBackendRef) (gid : Nat) :
    (removeGuildChannels st gid).guild_roles = st.guild_roles :=
  foldl_proj_const removeGuildChannel InMemoryBackendRef.guild_roles removeGuildChannel_guild_roles _ st

theorem removeGuildChannels_guild_emojis (st : InMemoryBackendRef) (gid : Nat) :
    (removeGuildChannels st gid).guild_emojis = st.guild_emojis :=
  foldl_proj_const removeGuildChannel InMemoryBackendRef.guild_emojis removeGuildChannel_guild_emojis _ st

theorem removeGuildChannels_guild_voice_states (st : InMemoryBackendRef) (gid : Nat) :
    (removeGuildChannels st gid).guild_voice_states = st.guild_voice_states :=
  foldl_proj_const removeGuildChannel InMemoryBackendRef.guild_voice_states removeGuildChannel_guild_voice_states _ st

theorem removeGuildEmojis_guilds (st : InMemoryBackendRef) (gid : Nat) :
    (removeGuildEmojis st gid).guilds = st.guilds :=
  foldl_proj_const emoji_remove InMemoryBackendRef.guilds (fun s n => rfl) _ st

theorem removeGuildEmojis_members (st : InMemoryBackendRef) (gid : Nat) :
    (removeGuildEmojis st gid).members = st.members :=
  foldl_proj_const emoji_remove InMemoryBackendRef.members (fun s n => rfl) _ st

theorem removeGuildEmojis_presences (st : InMemoryBackendRef) (gid : Nat) :
    (removeGuildEmojis st gid).presences = st.presences :=
  foldl_proj_const emoji_remove InMemoryBackendRef.presences (fun s n => rfl) _ st

theorem removeGuildEmojis_voice_states (st : InMemoryBackendRef) (gid : Nat) :
    (removeGuildEmojis st gid).voice_states = st.voice_states :=
  foldl_proj_const emoji_remove InMemoryBackendRef.voice_states (fun s n => rfl) _ st

theorem removeGuildEmojis_roles (st : InMemoryBackendRef) (gid : Nat) :
    (removeGuildEmojis st gid).roles = st.roles :=
  foldl_proj_const emoji_remove InMemoryBackendRef.roles (fun s n => rfl) _ st

theorem removeGuildEmojis_channels_text (st : InMemoryBackendRef) (gid : Nat) :
    (removeGuildEmojis st gid).channels_text = st.channels_text :=
  foldl_proj_const emoji_remove InMemoryBackendRef.channels_text (fun s n => rfl) _ st

theorem removeGuildEmojis_channels_voice (st : InMemoryBackendRef) (gid : Nat) :
    (removeGuildEmojis st gid).channels_voice = st.channels_voice :=
  foldl_proj_const emoji_remove InMemoryBackendRef.channels_voice (fun s n => rfl) _ st

theorem removeGuildEmojis_channels_category (st : InMemoryBackendRef) (gid : Nat) :
    (removeGuildEmojis st gid).channels_category = st.channels_category :=
  foldl_proj_const emoji_remove InMemoryBackendRef.channels_category (fun s n => rfl) _ st

theorem removeGuildEmojis_guild_channels (st : InMemoryBackendRef) (gid : Nat) :
    (removeGuildEmojis st gid).guild_channels = st.guild_channels :=
  foldl_proj_const emoji_remove InMemoryBackendRef.guild_channels (fun s n => rfl) _ st

theorem removeGuildEmojis_guild_members (st : InMemoryBackendRef) (gid : Nat) :
    (removeGuildEmojis st gid).guild_members = st.guild_members :=
  foldl_proj_const emoji_remove InMemoryBackendRef.guild_members (fun s n => rfl) _ st

theorem removeGuildEmojis_guild_presences (st : InMemoryBackendRef) (gid : Nat) :
    (removeGuildEmojis st gid).guild_presences = st.guild_presences :=
  foldl_proj_const emoji_remove InMemoryBackendRef.guild_presences (fun s n => rfl) _ st

theorem removeGuildEmojis_guild_roles (st : InMemoryBackendRef) (gid : Nat) :
    (removeGuildEmojis st gid).guild_roles = st.guild_roles :=
  foldl_proj_const emoji_remove InMemoryBackendRef.guild_roles (fun s n => rfl) _ st

theorem removeGuildEmojis_guild_voice_states (st : InMemoryBackendRef) (gid : Nat) :
    (removeGuildEmojis st gid).guild_voice_states = st.guild_voice_states :=
  foldl_proj_const emoji_remove InMemoryBackendRef.guild_voice_states (fun s n => rfl) _ st

theorem removeGuildMembers_guilds (st : InMemoryBackendRef) (gid : Nat) :
    (removeGuildMembers st gid).guilds = st.guilds :=
  foldl_proj_const (fun s u => member_remove s (gid, u)) InMemoryBackendRef.guilds (fun s n => rfl) _ st

theorem removeGuildMembers_presences (st : InMemoryBackendRef) (gid : Nat) :
    (removeGuildMembers st gid).presences = st.presences :=
  foldl_proj_const (fun s u => member_remove s (gid, u)) InMemoryBackendRef.presences (fun s n => rfl) _ st

theorem removeGuildMembers_voice_states (st : InMemoryBackendRef) (gid : Nat) :
    (removeGuildMembers st gid).voice_states = st.voice_states :=
  foldl_proj_const (fun s u => member_remove s (gid, u)) InMemoryBackendRef.voice_states (fun s n => rfl) _ st

theorem removeGuildMembers_roles (st : InMemoryBackendRef) (gid : Nat) :
    (removeGuildMembers st gid).roles = st.roles :=
  foldl_proj_const (fun s u => member_remove s (gid, u)) InMemoryBackendRef.roles (fun s n => rfl) _ st

theorem removeGuildMembers_emojis (st : InMemoryBackendRef) (gid : Nat) :
    (removeGuildMembers st gid).emojis = st.emojis :=
  foldl_proj_const (fun s u => member_remove s (gid, u)) InMemoryBackendRef.emojis (fun s n => rfl) _ st

theorem removeGuildMembers_channels_text (st : InMemoryBackendRef) (gid : Nat) :
    (removeGuildMembers st gid).channels_text = st.channels_text :=
  foldl_proj_const (fun s u => member_remove s (gid, u)) InMemoryBackendRef.channels_text (fun s n => rfl) _ st

theorem removeGuildMembers_channels_voice (st : InMemoryBackendRef) (gid : Nat) :
    (removeGuildMembers st gid).channels_voice = st.channels_voice :=
  foldl_proj_const (fun s u => member_remove s (gid, u)) InMemoryBackendRef.channels_voice (fun s n => rfl) _ st

theorem removeGuildMembers_channels_category (st : InMemoryBackendRef) (gid : Nat) :
    (removeGuildMembers st gid).channels_category = st.channels_category :=
  foldl_proj_const (fun s u => member_remove s (gid, u)) InMemoryBackendRef.channels_category (fun s n => rfl) _ st

theorem removeGuildMembers_guild_channels (st : InMemoryBackendRef) (gid : Nat) :
    (removeGuildMembers st gid).guild_channels = st.guild_channels :=
  foldl_proj_const (fun s u => member_remove s (gid, u)) InMemoryBackendRef.guild_channels (fun s n => rfl) _ st

theorem removeGuildMembers_guild_presences (st : InMemoryBackendRef) (gid : Nat) :
    (removeGuildMembers st gid).guild_presences = st.guild_presences :=
  foldl_proj_const (fun s u => member_remove s (gid, u)) InMemoryBackendRef.guild_presences (fun s n => rfl) _ st

theorem removeGuildMembers_guild_roles (st : InMemoryBackendRef) (gid : Nat) :
    (removeGuildMembers st gid).guild_roles = st.guild_roles :=
  foldl_proj_const (fun s u => member_remove s (gid, u)) InMemoryBackendRef.guild_roles (fun s n => rfl) _ st

theorem removeGuildMembers_guild_emojis (st : InMemoryBackendRef) (gid : Nat) :
    (removeGuildMembers st gid).guild_emojis = st.guild_emojis :=
  foldl_proj_const (fun s u => member_remove s (gid, u)) InMemoryBackendRef.guild_emojis (fun s n => rfl) _ st

theorem removeGuildMembers_guild_voice_states (st : InMemoryBackendRef) (gid : Nat) :
    (removeGuildMembers st gid).guild_voice_states = st.guild_voice_states :=
  foldl_proj_const (fun s u => member_remove s (gid, u)) InMemoryBackendRef.guild_voice_states (fun s n => rfl) _ st

theorem removeGuildPresences_guilds (st : InMemoryBackendRef) (gid : Nat) :
    (removeGuildPresences st gid).guilds = st.guilds :=
  foldl_proj_const (fun s u => presence_remove s (gid, u)) InMemoryBackendRef.guilds (fun s n => rfl) _ st

theorem removeGuildPresences_members (st : InMemoryBackendRef) (gid : Nat) :
    (removeGuildPresences st gid).members = st.members :=
  foldl_proj_const (fun s u => presence_remove s (gid, u)) InMemoryBackendRef.members (fun s n => rfl) _ st

theorem removeGuildPresences_voice_states (st : InMemoryBackendRef) (gid : Nat) :
    (removeGuildPresences st gid).voice_states = st.voice_states :=
  foldl_proj_const (fun s u => presence_remove s (gid, u)) InMemoryBackendRef.voice_states (fun s n => rfl) _ st

theorem removeGuildPresences_roles (st : InMemoryBackendRef) (gid : Nat) :
    (removeGuildPresences st gid).roles = st.roles :=
  foldl_proj_const (fun s u => presence_remove s (gid, u)) InMemoryBackendRef.roles (fun s n => rfl) _ st

theorem removeGuildPresences_emojis (st : InMemoryBackendRef) (gid : Nat) :
    (removeGuildPresences st gid).emojis = st.emojis :=
  foldl_proj_const (fun s u => presence_remove s (gid, u)) InMemoryBackendRef.emojis (fun s n => rfl) _ st

theorem removeGuildPresences_channels_text (st : InMemoryBackendRef) (gid : Nat) :
    (removeGuildPresences st gid).channels_text = st.channels_text :=
  foldl_proj_const (fun s u => presence_remove s (gid, u)) InMemoryBackendRef.channels_text (fun s n => rfl) _ st

theorem removeGuildPresences_channels_voice (st : InMemoryBackendRef) (gid : Nat) :
    (removeGuildPresences st gid).channels_voice = st.channels_voice :=
  foldl_proj_const (fun s u => presence_remove s (gid, u)) InMemoryBackendRef.channels_voice (fun s n => rfl) _ st

theorem removeGuildPresences_channels_category (st : InMemoryBackendRef) (gid : Nat) :
    (removeGuildPresences st gid).channels_category = st.channels_category :=
  foldl_proj_const (fun s u => presence_remove s (gid, u)) InMemoryBackendRef.channels_category (fun s n => rfl) _ st

theorem removeGuildPresences_guild_channels (st : InMemoryBackendRef) (gid : Nat) :
    (removeGuildPresences st gid).guild_channels = st.guild_channels :=
  foldl_proj_const (fun s u => presence_remove s (gid, u)) InMemoryBackendRef.guild_channels (fun s n => rfl) _ st

theorem removeGuildPresences_guild_members (st : InMemoryBackendRef) (gid : Nat) :
    (removeGuildPresences st gid).guild_members = st.guild_members :=
  foldl_proj_const (fun s u => presence_remove s (gid, u)) InMemoryBackendRef.guild_members (fun s n => rfl) _ st

theorem removeGuildPresences_guild_roles (st : InMemoryBackendRef) (gid : Nat) :
    (removeGuildPresences st gid).guild_roles = st.guild_roles :=
  foldl_proj_const (fun s u => presence_remove s (gid, u)) InMemoryBackendRef.guild_roles (fun s n => rfl) _ st

theorem removeGuildPresences_guild_emojis (st : InMemoryBackendRef) (gid : Nat) :
    (removeGuildPresences st gid).guild_emojis = st.guild_emojis :=
  foldl_proj_const (fun s u => presence_remove s (gid, u)) InMemoryBackendRef.guild_emojis (fun s n => rfl) _ st

theorem removeGuildPresences_guild_voice_states (st : InMemoryBackendRef) (gid : Nat) :
    (removeGuildPresences st gid).guild_voice_states = st.guild_voice_states :=
  foldl_proj_const (fun s u => presence_remove s (gid, u)) InMemoryBackendRef.guild_voice_states (fun s n => rfl) _ st

theorem removeGuildRoles_guilds (st : InMemoryBackendRef) (gid : Nat) :
    (removeGuildRoles st gid).guilds = st.guilds :=
  foldl_proj_const role_remove InMemoryBackendRef.guilds (fun s n => rfl) _ st

theorem removeGuildRoles_members (st : InMemoryBackendRef) (gid : Nat) :
    (removeGuildRoles st gid).members = st.members :=
  foldl_proj_const role_remove InMemoryBackendRef.members (fun s n => rfl) _ st

theorem removeGuildRoles_presences (st : InMemoryBackendRef) (gid : Nat) :
    (removeGuildRoles st gid).presences = st.presences :=
  foldl_proj_const role_remove InMemoryBackendRef.presences (fun s n => rfl) _ st

theorem removeGuildRoles_voice_states (st : InMemoryBackendRef) (gid : Nat) :
    (removeGuildRoles st gid).voice_states = st.voice_states :=
  foldl_proj_const role_remove InMemoryBackendRef.voice_states (fun s n => rfl) _ st

theorem removeGuildRoles_emojis (st : InMemoryBackendRef) (gid : Nat) :
    (removeGuildRoles st gid).emojis = st.emojis :=
  foldl_proj_const role_remove InMemoryBackendRef.emojis (fun s n => rfl) _ st

theorem removeGuildRoles_channels_text (st : InMemoryBackendRef) (gid : Nat) :
    (removeGuildRoles st gid).channels_text = st.channels_text :=
  foldl_proj_const role_remove InMemoryBackendRef.channels_text (fun s n => rfl) _ st

theorem removeGuildRoles_channels_voice (st : InMemoryBackendRef) (gid : Nat) :
    (removeGuildRoles st gid).channels_voice = st.channels_voice :=
  foldl_proj_const role_remove InMemoryBackendRef.channels_voice (fun s n => rfl) _ st

theorem removeGuildRoles_channels_category (st : InMemoryBackendRef) (gid : Nat) :
    (removeGuildRoles st gid).channels_category = st.channels_category :=
  foldl_proj_const role_remove InMemoryBackendRef.channels_category (fun s n => rfl) _ st

theorem removeGuildRoles_guild_channels (st : InMemoryBackendRef) (gid : Nat) :
    (removeGuildRoles st gid).guild_channels = st.guild_channels :=
  foldl_proj_const role_remove InMemoryBackendRef.guild_channels (fun s n => rfl) _ st

theorem removeGuildRoles_guild_members (st : InMemoryBackendRef) (gid : Nat) :
    (removeGuildRoles st gid).guild_members = st.guild_members :=
  foldl_proj_const role_remove InMemoryBackendRef.guild_members (fun s n => rfl) _ st

theorem removeGuildRoles_guild_presences (st : InMemoryBackendRef) (gid : Nat) :
    (removeGuildRoles st gid).guild_presences = st.guild_presences :=
  foldl_proj_const role_remove InMemoryBackendRef.guild_presences (fun s n => rfl) _ st

theorem removeGuildRoles_guild_emojis (st : InMemoryBackendRef) (gid : Nat) :
    (removeGuildRoles st gid).guild_emojis = st.guild_emojis :=
  foldl_proj_const role_remove InMemoryBackendRef.guild_emojis (fun s n => rfl) _ st

theorem removeGuildRoles_guild_voice_states (st : InMemoryBackendRef) (gid : Nat) :
    (removeGuildRoles st gid).guild_voice_states = st.guild_voice_states :=
  foldl_proj_const role_remove InMemoryBackendRef.guild_voice_states (fun s n => rfl) _ st

theorem removeGuildVoiceStates_guilds (st : InMemoryBackendRef) (gid : Nat) :
    (removeGuildVoiceStates st gid).guilds = st.guilds :=
  foldl_proj_const (fun s u => voice_state_remove s (gid, u)) InMemoryBackendRef.guilds (fun s n => rfl) _ st

theorem removeGuildVoiceStates_members (st : InMemoryBackendRef) (gid : Nat) :
    (removeGuildVoiceStates st gid).members = st.members :=
  foldl_proj_const (fun s u => voice_state_remove s (gid, u)) InMemoryBackendRef.members (fun s n => rfl) _ st

theorem removeGuildVoiceStates_presences (st : InMemoryBackendRef) (gid : Nat) :
    (removeGuildVoiceStates st gid).presences = st.presences :=
  foldl_proj_const (fun s u => voice_state_remove s (gid, u)) InMemoryBackendRef.presences (fun s n => rfl) _ st

theorem removeGuildVoiceStates_roles (st : InMemoryBackendRef) (gid : Nat) :
    (removeGuildVoiceStates st gid).roles = st.roles :=
  foldl_proj_const (fun s u => voice_state_remove s (gid, u)) InMemoryBackendRef.roles (fun s n => rfl) _ st

theorem removeGuildVoiceStates_emojis (st : InMemoryBackendRef) (gid : Nat) :
    (removeGuildVoiceStates st gid).emojis = st.emojis :=
  foldl_proj_const (fun s u => voice_state_remove s (gid, u)) InMemoryBackendRef.emojis (fun s n => rfl) _ st

theorem removeGuildVoiceStates_channels_text (st : InMemoryBackendRef) (gid : Nat) :
    (removeGuildVoiceStates st gid).channels_text = st.channels_text :=
  foldl_proj_const (fun s u => voice_state_remove s (gid, u)) InMemoryBackendRef.channels_text (fun s n => rfl) _ st

theorem removeGuildVoiceStates_channels_voice (st : InMemoryBackendRef) (gid : Nat) :
    (removeGuildVoiceStates st gid).channels_voice = st.channels_voice :=
  foldl_proj_const (fun s u => voice_state_remove s (gid, u)) InMemoryBackendRef.channels_voice (fun s n => rfl) _ st

theorem removeGuildVoiceStates_channels_category (st : InMemoryBackendRef) (gid : Nat) :
    (removeGuildVoiceStates st gid).channels_category = st.channels_category :=
  foldl_proj_const (fun s u => voice_state_remove s (gid, u)) InMemoryBackendRef.channels_category (fun s n => rfl) _ st

theorem removeGuildVoiceStates_guild_channels (st : InMemoryBackendRef) (gid : Nat) :
    (removeGuildVoiceStates st gid).guild_channels = st.guild_channels :=
  foldl_proj_const (fun s u => voice_state_remove s (gid, u)) InMemoryBackendRef.guild_channels (fun s n => rfl) _ st

theorem removeGuildVoiceStates_guild_members (st : InMemoryBackendRef) (gid : Nat) :
    (removeGuildVoiceStates st gid).guild_members = st.guild_members :=
  foldl_proj_const (fun s u => voice_state_remove s (gid, u)) InMemoryBackendRef.guild_members (fun s n => rfl) _ st

theorem removeGuildVoiceStates_guild_presences (st : InMemoryBackendRef) (gid : Nat) :
    (removeGuildVoiceStates st gid).guild_presences = st.guild_presences :=
  foldl_proj_const (fun s u => voice_state_remove s (gid, u)) InMemoryBackendRef.guild_presences (fun s n => rfl) _ st

theorem removeGuildVoiceStates_guild_roles (st : InMemoryBackendRef) (gid : Nat) :
    (removeGuildVoiceStates st gid).guild_roles = st.guild_roles :=
  foldl_proj_const (fun s u => voice_state_remove s (gid, u)) InMemoryBackendRef.guild_roles (fun s n => rfl) _ st

theorem removeGuildVoiceStates_guild_emojis (st : InMemoryBackendRef) (gid : Nat) :
    (removeGuildVoiceStates st gid).guild_emojis = st.guild_emojis :=
  foldl_proj_const (fun s u => voice_state_remove s (gid, u)) InMemoryBackendRef.guild_emojis (fun s n => rfl) _ st

/-- Consistency of the guild-scoped secondary indexes with the primary
maps: every stored guild-scoped child is present in its guild's index set,
and a channel id is stored in at most one of the three guild-channel maps
(ids are globally unique across channel kinds).  The spec-modelled index
maintenance establishes this on every child write, so it holds in every
state the repositories build. -/
structure IndexOk (st : InMemoryBackendRef) : Prop where
  members_idx : ∀ p ∈ st.members, p.1.2 ∈ sGet st.guild_members p.1.1
  presences_idx : ∀ p ∈ st.presences, p.1.2 ∈ sGet st.guild_presences p.1.1
  voice_states_idx : ∀ p ∈ st.voice_states, p.1.2 ∈ sGet st.guild_voice_states p.1.1
  roles_idx : ∀ p ∈ st.roles, p.1 ∈ sGet st.guild_roles p.2.guild_id
  emojis_idx : ∀ p ∈ st.emojis, p.1 ∈ sGet st.guild_emojis p.2.guild_id
  text_idx : ∀ p ∈ st.channels_text,
    match p.2.guild_id with
    | some g => p.1 ∈ sGet st.guild_channels g
    | none => True
  voice_idx : ∀ p ∈ st.channels_voice,
    match p.2.guild_id with
    | some g => p.1 ∈ sGet st.guild_channels g
    | none => True
  category_idx : ∀ p ∈ st.channels_category,
    match p.2.guild_id with
    | some g => p.1 ∈ sGet st.guild_channels g
    | none => True
  voice_not_text : ∀ p ∈ st.channels_voice, alGet st.channels_text p.1 = none
  category_not_text : ∀ p ∈ st.channels_category, alGet st.channels_text p.1 = none
  category_not_voice : ∀ p ∈ st.channels_category, alGet st.channels_voice p.1 = none

/-- C1: processing a guild delete with unavailable=false removes the guild
and every child scoped to it, leaving no orphans: afterwards the guild
lookup and every lookup of a member, presence or voice state keyed by the
guild id return `none`, and so does the lookup of every role, emoji and
guild channel that was stored as belonging to the guild. -/
theorem guildDelete_cascades_removes_guild_and_children (e : GuildDelete)
    (st : InMemoryBackendRef) (hun : e.unavailable = false) (hidx : IndexOk st) :
    guild_get (GuildDelete.process e st) e.id = none ∧
    (∀ u, member_get (GuildDelete.process e st) (e.id, u) = none) ∧
    (∀ u, presence_get (GuildDelete.process e st) (e.id, u) = none) ∧
    (∀ u, voice_state_get (GuildDelete.process e st) (e.id, u) = none) ∧
    (∀ rid r, role_get st rid = some r → r.guild_id = e.id →
      role_get (GuildDelete.process e st) rid = none) ∧
    (∀ eid em, emoji_get st eid = some em → em.guild_id = e.id →
      emoji_get (GuildDelete.process e st) eid = none) ∧
    (∀ cid c, text_channel_get st cid = some c → c.guild_id = some e.id →
      text_channel_get (GuildDelete.process e st) cid = none) ∧
    (∀ cid c, voice_channel_get st cid = some c → c.guild_id = some e.id →
      voice_channel_get (GuildDelete.process e st) cid = none) ∧
    (∀ cid c, category_channel_get st cid = some c → c.guild_id = some e.id →
      category_channel_get (GuildDelete.process e st) cid = none) := by
  have hproc : GuildDelete.process e st =
      guild_remove
        (removeGuildVoiceStates
          (removeGuildRoles
            (removeGuildPresences
              (removeGuildMembers
                (removeGuildEmojis (removeGuildChannels st e.id) e.id) e.id) e.id)
            e.id) e.id) e.id := by
    simp [GuildDelete.process, hun]
  rw [hproc]
  generalize hs1 : removeGuildChannels st e.id = s1
  generalize hs2 : removeGuildEmojis s1 e.id = s2
  generalize hs3 : removeGuildMembers s2 e.id = s3
  generalize hs4 : removeGuildPresences s3 e.id = s4
  generalize hs5 : removeGuildRoles s4 e.id = s5
  generalize hs6 : removeGuildVoiceStates s5 e.id = s6
  have hm2 : s2.members = st.members := by
    rw [← hs2, removeGuildEmojis_members, ← hs1, removeGuildChannels_members]
  have hgm2 : s2.guild_members = st.guild_members := by
    rw [← hs2, removeGuildEmojis_guild_members, ← hs1, removeGuildChannels_guild_members]
  have hp3 : s3.presences = st.presences := by
    rw [← hs3, removeGuildMembers_presences, ← hs2, removeGuildEmojis_presences, ← hs1,
      removeGuildChannels_presences]
  have hgp3 : s3.guild_presences = st.guild_presences := by
    rw [← hs3, removeGuildMembers_guild_presences, ← hs2, removeGuildEmojis_guild_presences,
      ← hs1, removeGuildChannels_guild_presences]
  have hv5 : s5.voice_states = st.voice_states := by
    rw [← hs5, removeGuildRoles_voice_states, ← hs4, removeGuildPresences_voice_states,
      ← hs3, removeGuildMembers_voice_states, ← hs2, removeGuildEmojis_voice_states, ← hs1,
      removeGuildChannels_voice_states]
  have hgv5 : s5.guild_voice_states = st.guild_voice_states := by
    rw [← hs5, removeGuildRoles_guild_voice_states, ← hs4,
      removeGuildPresences_guild_voice_states, ← hs3,
      removeGuildMembers_guild_voice_states, ← hs2,
      removeGuildEmojis_guild_voice_states, ← hs1,
      removeGuildChannels_guild_voice_states]
  have hr4 : s4.roles = st.roles := by
    rw [← hs4, removeGuildPresences_roles, ← hs3, removeGuildMembers_roles, ← hs2,
      removeGuildEmojis_roles, ← hs1, removeGuildChannels_roles]
  have hgr4 : s4.guild_roles = st.guild_roles := by
    rw [← hs4, removeGuildPresences_guild_roles, ← hs3, removeGuildMembers_guild_roles,
      ← hs2, removeGuildEmojis_guild_roles, ← hs1, removeGuildChannels_guild_roles]
  have he1 : s1.emojis = st.emojis := by
    rw [← hs1, removeGuildChannels_emojis]
  have hge1 : s1.guild_emojis = st.guild_emojis := by
    rw [← hs1, removeGuildChannels_guild_emojis]
  refine ⟨?_, ?_, ?_, ?_, ?_, ?_, ?_, ?_, ?_⟩
  · show alGet (alErase s6.guilds e.id) e.id = none
    exact alGet_erase_self _ _
  · intro u
    show alGet s6.members (e.id, u) = none
    have h63 : s6.members = s3.members := by
      rw [← hs6, removeGuildVoiceStates_members, ← hs5, removeGuildRoles_members, ← hs4,
        removeGuildPresences_members]
    rw [h63, ← hs3]
    show alGet
      ((sGet s2.guild_members e.id).foldl (fun s u => member_remove s (e.id, u))
        s2).members (e.id, u) = none
    cases halG : alGet st.members (e.id, u) with
    | none =>
      apply alGet_foldl_erase_none (fun s u => member_remove s (e.id, u))
        InMemoryBackendRef.members (fun u => (e.id, u)) (fun _ _ => rfl)
      rw [hm2]
      exact halG
    | some m =>
      have hmem := hidx.members_idx ((e.id, u), m) (alGet_mem _ _ _ halG)
      rw [← hgm2] at hmem
      exact alGet_foldl_erase_of_mem (fun s u => member_remove s (e.id, u))
        InMemoryBackendRef.members (fun u => (e.id, u)) (fun _ _ => rfl) _ s2 u hmem
  · intro u
    show alGet s6.presences (e.id, u) = none
    have h64 : s6.presences = s4.presences := by
      rw [← hs6, removeGuildVoiceStates_presences, ← hs5, removeGuildRoles_presences]
    rw [h64, ← hs4]
    show alGet
      ((sGet s3.guild_presences e.id).foldl (fun s u => presence_remove s (e.id, u))
        s3).presences (e.id, u) = none
    cases halG : alGet st.presences (e.id, u) with
    | none =>
      apply alGet_foldl_erase_none (fun s u => presence_remove s (e.id, u))
        InMemoryBackendRef.presences (fun u => (e.id, u)) (fun _ _ => rfl)
      rw [hp3]
      exact halG
    | some p =>
      have hmem := hidx.presences_idx ((e.id, u), p) (alGet_mem _ _ _ halG)
      rw [← hgp3] at hmem
      exact alGet_foldl_erase_of_mem (fun s u => presence_remove s (e.id, u))
        InMemoryBackendRef.presences (fun u => (e.id, u)) (fun _ _ => rfl) _ s3 u hmem
  · intro u
    show alGet s6.voice_states (e.id, u) = none
    rw [← hs6]
    show alGet
      ((sGet s5.guild_voice_states e.id).foldl
        (fun s u => voice_state_remove s (e.id, u)) s5).voice_states (e.id, u) = none
    cases halG : alGet st.voice_states (e.id, u) with
    | none =>
      apply alGet_foldl_erase_none (fun s u => voice_state_remove s (e.id, u))
        InMemoryBackendRef.voice_states (fun u => (e.id, u)) (fun _ _ => rfl)
      rw [hv5]
      exact halG
    | some v =>
      have hmem := hidx.voice_states_idx ((e.id, u), v) (alGet_mem _ _ _ halG)
      rw [← hgv5] at hmem
      exact alGet_foldl_erase_of_mem (fun s u => voice_state_remove s (e.id, u))
        InMemoryBackendRef.voice_states (fun u => (e.id, u)) (fun _ _ => rfl) _ s5 u
        hmem
  · intro rid r hstored hg
    show alGet s6.roles rid = none
    have h65 : s6.roles = s5.roles := by
      rw [← hs6, removeGuildVoiceStates_roles]
    rw [h65, ← hs5]
    show alGet ((sGet s4.guild_roles e.id).foldl role_remove s4).roles rid = none
    have hmem := hidx.roles_idx (rid, r) (alGet_mem _ _ _ hstored)
    rw [hg] at hmem
    rw [← hgr4] at hmem
    exact alGet_foldl_erase_of_mem role_remove InMemoryBackendRef.roles
      (fun n => n) (fun _ _ => rfl) _ s4 rid hmem
  · intro eid em hstored hg
    show alGet s6.emojis eid = none
    have h62 : s6.emojis = s2.emojis := by
      rw [← hs6, removeGuildVoiceStates_emojis, ← hs5, removeGuildRoles_emojis, ← hs4,
        removeGuildPresences_emojis, ← hs3, removeGuildMembers_emojis]
    rw [h62, ← hs2]
    show alGet ((sGet s1.guild_emojis e.id).foldl emoji_remove s1).emojis eid = none
    have hmem := hidx.emojis_idx (eid, em) (alGet_mem _ _ _ hstored)
    rw [hg] at hmem
    rw [← hge1] at hmem
    exact alGet_foldl_erase_of_mem emoji_remove InMemoryBackendRef.emojis
      (fun n => n) (fun _ _ => rfl) _ s1 eid hmem
  · intro cid c hstored hg
    show alGet s6.channels_text cid = none
    have h61 : s6.channels_text = s1.channels_text := by
      rw [← hs6, removeGuildVoiceStates_channels_text, ← hs5,
        removeGuildRoles_channels_text, ← hs4, removeGuildPresences_channels_text, ← hs3,
        removeGuildMembers_channels_text, ← hs2, removeGuildEmojis_channels_text]
    rw [h61, ← hs1]
    show alGet
      ((sGet st.guild_channels e.id).foldl removeGuildChannel st).channels_text cid =
        none
    have hp := hidx.text_idx (cid, c) (alGet_mem _ _ _ hstored)
    simp only [hg] at hp
    exact foldl_removeGuildChannel_text_of_mem _ st cid hp
  · intro cid c hstored hg
    show alGet s6.channels_voice cid = none
    have h61 : s6.channels_voice = s1.channels_voice := by
      rw [← hs6, removeGuildVoiceStates_channels_voice, ← hs5,
        removeGuildRoles_channels_voice, ← hs4, removeGuildPresences_channels_voice, ← hs3,
        removeGuildMembers_channels_voice, ← hs2, removeGuildEmojis_channels_voice]
    rw [h61, ← hs1]
    show alGet
      ((sGet st.guild_channels e.id).foldl removeGuildChannel st).channels_voice cid =
        none
    have hp := hidx.voice_idx (cid, c) (alGet_mem _ _ _ hstored)
    simp only [hg] at hp
    have htext := hidx.voice_not_text (cid, c) (alGet_mem _ _ _ hstored)
    exact foldl_removeGuildChannel_voice_of_mem _ st cid hp htext
  · intro cid c hstored hg
    show alGet s6.channels_category cid = none
    have h61 : s6.channels_category = s1.channels_category := by
      rw [← hs6, removeGuildVoiceStates_channels_category, ← hs5,
        removeGuildRoles_channels_category, ← hs4,
        removeGuildPresences_channels_category, ← hs3,
        removeGuildMembers_channels_category, ← hs2, removeGuildEmojis_channels_category]
    rw [h61, ← hs1]
    show alGet
      ((sGet st.guild_channels e.id).foldl
        removeGuildChannel st).channels_category cid = none
    have hp := hidx.category_idx (cid, c) (alGet_mem _ _ _ hstored)
    simp only [hg] at hp
    have htext := hidx.category_not_text (cid, c) (alGet_mem _ _ _ hstored)
    have hvoice := hidx.category_not_voice (cid, c) (alGet_mem _ _ _ hstored)
    exact foldl_removeGuildChannel_category_of_mem _ st cid hp htext hvoice

def cascadeRole : RoleEntity :=
  { color := 0, guild_id := 1, hoist := false, id := 12, managed := false,
    mentionable := false, name := "role", permissions := 0, position := 1 }

/-- Upsert Guild(id=1), Member(guild=1, user=2), Role(id=12, guild=1). -/
def cascadeScenario : InMemoryBackendRef :=
  role_upsert
    (member_upsert (guild_upsert (emptyBackend Config.default) unavailableGuild)
      storedBob)
    cascadeRole

theorem guildDelete_cascades_removes_guild_and_children_witness :
    guild_get (GuildDelete.process { id := 1, unavailable := false } cascadeScenario)
        1 = none ∧
    member_get (GuildDelete.process { id := 1, unavailable := false } cascadeScenario)
        (1, 2) = none ∧
    role_get (GuildDelete.process { id := 1, unavailable := false } cascadeScenario)
        12 = none :=
  have hidx : IndexOk cascadeScenario :=
    { members_idx := by decide
      presences_idx := by decide
      voice_states_idx := by decide
      roles_idx := by decide
      emojis_idx := by decide
      text_idx := by
        intro p hp
        rw [show cascadeScenario.channels_text = [] from rfl] at hp
        exact absurd hp (List.not_mem_nil p)
      voice_idx := by
        intro p hp
        rw [show cascadeScenario.channels_voice = [] from rfl] at hp
        exact absurd hp (List.not_mem_nil p)
      category_idx := by
        intro p hp
        rw [show cascadeScenario.channels_category = [] from rfl] at hp
        exact absurd hp (List.not_mem_nil p)
      voice_not_text := by decide
      category_not_text := by decide
      category_not_voice := by decide }
  have h := guildDelete_cascades_removes_guild_and_children
    { id := 1, unavailable := false } cascadeScenario rfl hidx
  ⟨h.1, h.2.1 2, h.2.2.2.2.1 12 cascadeRole (by decide) rfl⟩

end Twi
